import Mathlib

/-!
# jtk `GlContext.cpp`: lifecycle of an OpenGL context bound to a canvas

A shallow embedding of `src/edu/mines/jtk/opengl/GlContext.cpp`.

* Every C++ class is a structure holding its fields; a method is a function from
  the object and the outcomes of the native calls it makes (`Natives`) to the
  method's result, the updated object and the list of native calls it issued,
  in order (`Call`).
* A pointer field is a `Ptr`: besides the pointee it records whether the
  pointer was ever assigned and whether the native library has already
  released the object behind it.  Going through a pointer that has no live
  object behind it has no defined behaviour; such a method call yields `none`.
* A handle field that is declared without an initialiser is an `Option Handle`,
  `none` until the first assignment.  Passing such a field by value to a
  native call is recorded as it is.
* The two platforms are selected by the preprocessor (`MWIN`, `XWIN`); the four
  concrete classes are the four constructors of `GlContext`, and a virtual
  call is a match on the constructor.
* The `JNIEnv*` arguments and the `_env` fields only designate the receiver of
  the JNI calls and are left out.
* One method invocation calls each native whose result it uses at most once, so
  one `Natives` record per invocation covers every behaviour of the environment.
* The untyped `platformInfo` pointer is cast to the platform's block type; when
  the block behind it is of the other platform the cast has no defined
  behaviour either, and `makeCurrent` yields `none`.
-/

namespace Jtk

/-- Native handle or pointer value; zero is the null handle (also X11 `None`). -/
abbrev Handle := Nat

/-- Platform block of a drawing-surface info on Microsoft Windows (`jawt_md.h`). -/
structure JAWT_Win32DrawingSurfaceInfo where
  hwnd : Handle
  hdc : Handle
deriving DecidableEq, Repr

/-- Platform block of a drawing-surface info on X Windows (`jawt_md.h`). -/
structure JAWT_X11DrawingSurfaceInfo where
  drawable : Handle
  display : Handle
deriving DecidableEq, Repr

/-- What the untyped `platformInfo` pointer of a drawing-surface info points to. -/
inductive PlatformInfo where
  | win32 (i : JAWT_Win32DrawingSurfaceInfo)
  | x11 (i : JAWT_X11DrawingSurfaceInfo)
deriving DecidableEq, Repr

/-- The block returned by `GetDrawingSurfaceInfo`. -/
structure JAWT_DrawingSurfaceInfo where
  platformInfo : PlatformInfo
deriving DecidableEq, Repr

/-- A pointer field together with the liveness of the object it designates. -/
inductive Ptr (α : Type) where
  | uninit : Ptr α
  | null : Ptr α
  | live (a : α) : Ptr α
  | freed (a : α) : Ptr α
deriving DecidableEq, Repr

/-- Dereference: defined only when a live object is behind the pointer. -/
def Ptr.deref {α : Type} : Ptr α → Option α
  | .live a => some a
  | _ => none

/-- Flags and enumerators of `PIXELFORMATDESCRIPTOR` used by the source. -/
inductive PfdConst where
  | PFD_DRAW_TO_WINDOW
  | PFD_SUPPORT_OPENGL
  | PFD_DOUBLEBUFFER
  | PFD_TYPE_RGBA
  | PFD_MAIN_PLANE
deriving DecidableEq, Repr

/-- The fields of `PIXELFORMATDESCRIPTOR` that the source sets after `ZeroMemory`. -/
structure PIXELFORMATDESCRIPTOR where
  nVersion : Nat
  dwFlags : List PfdConst
  iPixelType : PfdConst
  cColorBits : Nat
  cDepthBits : Nat
  iLayerType : PfdConst
deriving DecidableEq, Repr

/-- The descriptor built in both `Wgl*CanvasContext::makeCurrent`. -/
def pfd : PIXELFORMATDESCRIPTOR :=
  { nVersion := 1
    dwFlags := [.PFD_DRAW_TO_WINDOW, .PFD_SUPPORT_OPENGL, .PFD_DOUBLEBUFFER]
    iPixelType := .PFD_TYPE_RGBA
    cColorBits := 16
    cDepthBits := 16
    iLayerType := .PFD_MAIN_PLANE }

/-- Entries of the GLX visual-attribute list. -/
inductive GlxAttrib where
  | GLX_DOUBLEBUFFER
  | GLX_RGBA
  | GLX_DEPTH_SIZE
  | GLX_RED_SIZE
  | GLX_GREEN_SIZE
  | GLX_BLUE_SIZE
  | value (n : Nat)
  | None
deriving DecidableEq, Repr

/-- The attribute list built in both `Glx*CanvasContext::makeCurrent`. -/
def config : List GlxAttrib :=
  [.GLX_DOUBLEBUFFER, .GLX_RGBA,
   .GLX_DEPTH_SIZE, .value 16,
   .GLX_RED_SIZE, .value 1,
   .GLX_GREEN_SIZE, .value 1,
   .GLX_BLUE_SIZE, .value 1,
   .None]

/-- Error bit of the `jint` returned by `JAWT_DrawingSurface::Lock` (JDK `jawt.h`). -/
def JAWT_LOCK_ERROR : Nat := 0x00000001

/-- One call made by the program to the JNI, the JAWT, the windowing system, the
OpenGL binding or `stderr`, with its arguments; the result is recorded when the
program uses it, and for `SwapBuffers`. -/
inductive Call where
  | trace (message : String)
  | NewGlobalRef (canvas : Handle) (r : Handle)
  | DeleteGlobalRef (ref : Handle)
  | JAWT_GetAWT (r : Bool)
  | GetDrawingSurface (canvas : Handle) (r : Option Handle)
  | Lock (ds : Handle) (r : Nat)
  | GetDrawingSurfaceInfo (ds : Handle) (r : Option JAWT_DrawingSurfaceInfo)
  | FreeDrawingSurfaceInfo (ds : Handle) (dsi : JAWT_DrawingSurfaceInfo)
  | Unlock (ds : Handle)
  | FreeDrawingSurface (ds : Handle)
  | ChoosePixelFormat (hdc : Option Handle) (d : PIXELFORMATDESCRIPTOR) (r : Int)
  | SetPixelFormat (hdc : Option Handle) (format : Int) (d : PIXELFORMATDESCRIPTOR)
  | wglCreateContext (hdc : Option Handle) (r : Handle)
  | wglMakeCurrent (hdc : Option Handle) (hglrc : Handle)
  | SwapBuffers (hdc : Option Handle) (r : Bool)
  | wglDeleteContext (hglrc : Handle)
  | DefaultScreen (display : Option Handle) (r : Int)
  | glXChooseVisual (display : Option Handle) (screen : Int) (attribs : List GlxAttrib)
      (r : Handle)
  | glXCreateContext (display : Option Handle) (visualInfo : Handle) (shareList : Handle)
      (direct : Bool) (r : Handle)
  | glXMakeCurrent (display : Option Handle) (drawable : Option Handle) (ctx : Handle)
  | glXWaitX
  | glXWaitGL
  | glXSwapBuffers (display : Option Handle) (drawable : Option Handle)
  | glXDestroyContext (display : Option Handle) (ctx : Handle)
deriving DecidableEq, Repr

/-- Outcomes of the native calls one method invocation may make: every possible
behaviour of the environment is some value of this record. -/
structure Natives where
  JAWT_GetAWT : Bool
  GetDrawingSurface : Option Handle
  Lock : Nat
  GetDrawingSurfaceInfo : Option JAWT_DrawingSurfaceInfo
  ChoosePixelFormat : Int
  wglCreateContext : Handle
  SwapBuffers : Bool
  DefaultScreen : Int
  glXChooseVisual : Handle
  glXCreateContext : Handle
deriving DecidableEq, Repr

/-! ## `GlAwtCanvasContext` -/

/-- Fields of `class GlAwtCanvasContext`. -/
structure GlAwtCanvasContext where
  _canvas : Handle
  _ds : Ptr Handle
  _dsi : Ptr JAWT_DrawingSurfaceInfo
deriving DecidableEq, Repr

/-- Constructor `GlAwtCanvasContext(env,canvas)`; `ref` is what `NewGlobalRef` returns. -/
def GlAwtCanvasContext.new (canvas ref : Handle) : GlAwtCanvasContext × List Call :=
  ({ _canvas := ref, _ds := .uninit, _dsi := .uninit }, [.NewGlobalRef canvas ref])

/-- Destructor `~GlAwtCanvasContext`. -/
def GlAwtCanvasContext.destructor (c : GlAwtCanvasContext) : List Call :=
  [.DeleteGlobalRef c._canvas]

/-- Method `GlAwtCanvasContext::lock`, for a derived class `σ` whose base part is
read by `base` and written by `setBase` and whose override of the virtual
`makeCurrent` is the argument `makeCurrent`. -/
def GlAwtCanvasContext.lock {σ : Type} (base : σ → GlAwtCanvasContext)
    (setBase : σ → GlAwtCanvasContext → σ)
    (makeCurrent : σ → Bool → Natives → Option (σ × List Call))
    (c : σ) (n : Natives) : Option (Bool × σ × List Call) :=
  if n.JAWT_GetAWT = false then
    some (false, c,
      [.JAWT_GetAWT false, .trace "GlAwtCanvasContext.lock: cannot get AWT"])
  else
    match n.GetDrawingSurface with
    | none =>
      some (false, setBase c { base c with _ds := .null },
        [.JAWT_GetAWT true, .GetDrawingSurface (base c)._canvas none,
         .trace "GlAwtCanvasContext.lock: cannot get DrawingSurface"])
    | some ds =>
      if n.Lock &&& JAWT_LOCK_ERROR ≠ 0 then
        some (false, setBase c { base c with _ds := .freed ds },
          [.JAWT_GetAWT true, .GetDrawingSurface (base c)._canvas (some ds),
           .Lock ds n.Lock,
           .trace "GlAwtCanvasContext.lock: cannot lock DrawingSurface",
           .FreeDrawingSurface ds])
      else
        match n.GetDrawingSurfaceInfo with
        | none =>
          some (false, setBase c { base c with _ds := .freed ds, _dsi := .null },
            [.JAWT_GetAWT true, .GetDrawingSurface (base c)._canvas (some ds),
             .Lock ds n.Lock, .GetDrawingSurfaceInfo ds none,
             .trace "GlAwtCanvasContext.lock: cannot get DrawingSurfaceInfo",
             .Unlock ds, .FreeDrawingSurface ds])
        | some dsi =>
          match makeCurrent (setBase c { base c with _ds := .live ds, _dsi := .live dsi })
              true n with
          | none => none
          | some r =>
            some (true, r.1,
              [.JAWT_GetAWT true, .GetDrawingSurface (base c)._canvas (some ds),
               .Lock ds n.Lock, .GetDrawingSurfaceInfo ds (some dsi)] ++ r.2)

/-- Method `GlAwtCanvasContext::unlock`. -/
def GlAwtCanvasContext.unlock {σ : Type} (base : σ → GlAwtCanvasContext)
    (setBase : σ → GlAwtCanvasContext → σ)
    (makeCurrent : σ → Bool → Natives → Option (σ × List Call))
    (c : σ) (n : Natives) : Option (Bool × σ × List Call) :=
  match makeCurrent c false n with
  | none => none
  | some r =>
    match (base r.1)._ds, (base r.1)._dsi with
    | .live ds, .live dsi =>
      some (true, setBase r.1 { base r.1 with _ds := .freed ds, _dsi := .freed dsi },
        r.2 ++ [.FreeDrawingSurfaceInfo ds dsi, .Unlock ds, .FreeDrawingSurface ds])
    | _, _ => none

/-! ## `WglAwtCanvasContext` (MWIN) -/

/-- Fields of `class WglAwtCanvasContext`. -/
structure WglAwtCanvasContext extends GlAwtCanvasContext where
  _dsi_win32 : Option JAWT_Win32DrawingSurfaceInfo
  _hwnd : Option Handle
  _hdc : Option Handle
  _hglrc : Handle
deriving DecidableEq, Repr

/-- Constructor `WglAwtCanvasContext(env,canvas)`. -/
def WglAwtCanvasContext.new (canvas ref : Handle) : WglAwtCanvasContext × List Call :=
  ({ toGlAwtCanvasContext := (GlAwtCanvasContext.new canvas ref).1
     _dsi_win32 := none, _hwnd := none, _hdc := none, _hglrc := 0 },
   (GlAwtCanvasContext.new canvas ref).2)

/-- Destructor `~WglAwtCanvasContext`, followed by the base-class destructor. -/
def WglAwtCanvasContext.destructor (c : WglAwtCanvasContext) : List Call :=
  (if c._hglrc ≠ 0 then [.wglDeleteContext c._hglrc] else [])
    ++ c.toGlAwtCanvasContext.destructor

/-- Method `WglAwtCanvasContext::makeCurrent`. -/
def WglAwtCanvasContext.makeCurrent (c : WglAwtCanvasContext) (flag : Bool) (n : Natives) :
    Option (WglAwtCanvasContext × List Call) :=
  match c._dsi.deref with
  | some ⟨.win32 w⟩ =>
    let hglrc := if c._hglrc = 0 then n.wglCreateContext else c._hglrc
    some ({ c with _dsi_win32 := some w, _hwnd := some w.hwnd, _hdc := some w.hdc,
                   _hglrc := hglrc },
      (if c._hglrc = 0 then
        [.ChoosePixelFormat (some w.hdc) pfd n.ChoosePixelFormat,
         .SetPixelFormat (some w.hdc) n.ChoosePixelFormat pfd,
         .wglCreateContext (some w.hdc) n.wglCreateContext]
       else [])
      ++ [if flag then .wglMakeCurrent (some w.hdc) hglrc
          else .wglMakeCurrent (some w.hdc) 0])
  | _ => none

/-- Method `WglAwtCanvasContext::swapBuffers`. -/
def WglAwtCanvasContext.swapBuffers (c : WglAwtCanvasContext) (n : Natives) :
    Option (Bool × WglAwtCanvasContext × List Call) :=
  some (true, c, [.SwapBuffers c._hdc n.SwapBuffers])

/-- Inherited `lock` of a `WglAwtCanvasContext`. -/
def WglAwtCanvasContext.lock (c : WglAwtCanvasContext) (n : Natives) :
    Option (Bool × WglAwtCanvasContext × List Call) :=
  GlAwtCanvasContext.lock WglAwtCanvasContext.toGlAwtCanvasContext
    (fun c b => { c with toGlAwtCanvasContext := b }) WglAwtCanvasContext.makeCurrent c n

/-- Inherited `unlock` of a `WglAwtCanvasContext`. -/
def WglAwtCanvasContext.unlock (c : WglAwtCanvasContext) (n : Natives) :
    Option (Bool × WglAwtCanvasContext × List Call) :=
  GlAwtCanvasContext.unlock WglAwtCanvasContext.toGlAwtCanvasContext
    (fun c b => { c with toGlAwtCanvasContext := b }) WglAwtCanvasContext.makeCurrent c n

/-! ## `GlxAwtCanvasContext` (XWIN) -/

/-- Fields of `class GlxAwtCanvasContext`. -/
structure GlxAwtCanvasContext extends GlAwtCanvasContext where
  _dsi_x11 : Option JAWT_X11DrawingSurfaceInfo
  _display : Option Handle
  _drawable : Option Handle
  _context : Handle
deriving DecidableEq, Repr

/-- Constructor `GlxAwtCanvasContext(env,canvas)`. -/
def GlxAwtCanvasContext.new (canvas ref : Handle) : GlxAwtCanvasContext × List Call :=
  ({ toGlAwtCanvasContext := (GlAwtCanvasContext.new canvas ref).1
     _dsi_x11 := none, _display := none, _drawable := none, _context := 0 },
   (GlAwtCanvasContext.new canvas ref).2)

/-- Destructor `~GlxAwtCanvasContext`, followed by the base-class destructor. -/
def GlxAwtCanvasContext.destructor (c : GlxAwtCanvasContext) : List Call :=
  (if c._context ≠ 0 then [.glXDestroyContext c._display c._context] else [])
    ++ c.toGlAwtCanvasContext.destructor

/-- Method `GlxAwtCanvasContext::makeCurrent`. -/
def GlxAwtCanvasContext.makeCurrent (c : GlxAwtCanvasContext) (flag : Bool) (n : Natives) :
    Option (GlxAwtCanvasContext × List Call) :=
  match c._dsi.deref with
  | some ⟨.x11 x⟩ =>
    let context := if c._context = 0 then n.glXCreateContext else c._context
    some ({ c with _dsi_x11 := some x, _display := some x.display,
                   _drawable := some x.drawable, _context := context },
      (if c._context = 0 then
        [.DefaultScreen (some x.display) n.DefaultScreen,
         .glXChooseVisual (some x.display) n.DefaultScreen config n.glXChooseVisual,
         .glXCreateContext (some x.display) n.glXChooseVisual 0 true n.glXCreateContext]
       else [])
      ++ [if flag then .glXMakeCurrent (some x.display) (some x.drawable) context
          else .glXMakeCurrent (some x.display) (some x.drawable) 0]
      ++ (if flag then
            [.glXMakeCurrent (some x.display) (some x.drawable) context, .glXWaitX]
          else
            [.glXWaitGL, .glXMakeCurrent (some x.display) (some 0) 0]))
  | _ => none

/-- Method `GlxAwtCanvasContext::swapBuffers`. -/
def GlxAwtCanvasContext.swapBuffers (c : GlxAwtCanvasContext) (_n : Natives) :
    Option (Bool × GlxAwtCanvasContext × List Call) :=
  some (true, c, [.glXSwapBuffers c._display c._drawable])

/-- Inherited `lock` of a `GlxAwtCanvasContext`. -/
def GlxAwtCanvasContext.lock (c : GlxAwtCanvasContext) (n : Natives) :
    Option (Bool × GlxAwtCanvasContext × List Call) :=
  GlAwtCanvasContext.lock GlxAwtCanvasContext.toGlAwtCanvasContext
    (fun c b => { c with toGlAwtCanvasContext := b }) GlxAwtCanvasContext.makeCurrent c n

/-- Inherited `unlock` of a `GlxAwtCanvasContext`. -/
def GlxAwtCanvasContext.unlock (c : GlxAwtCanvasContext) (n : Natives) :
    Option (Bool × GlxAwtCanvasContext × List Call) :=
  GlAwtCanvasContext.unlock GlxAwtCanvasContext.toGlAwtCanvasContext
    (fun c b => { c with toGlAwtCanvasContext := b }) GlxAwtCanvasContext.makeCurrent c n

/-! ## `GlSwtCanvasContext` and its two derived classes -/

/-- Method `GlSwtCanvasContext::lock`, over the override of `makeCurrent`. -/
def GlSwtCanvasContext.lock {σ : Type}
    (makeCurrent : σ → Bool → Natives → Option (σ × List Call))
    (c : σ) (n : Natives) : Option (Bool × σ × List Call) :=
  match makeCurrent c true n with
  | none => none
  | some r => some (true, r.1, r.2)

/-- Method `GlSwtCanvasContext::unlock`, over the override of `makeCurrent`. -/
def GlSwtCanvasContext.unlock {σ : Type}
    (makeCurrent : σ → Bool → Natives → Option (σ × List Call))
    (c : σ) (n : Natives) : Option (Bool × σ × List Call) :=
  match makeCurrent c false n with
  | none => none
  | some r => some (true, r.1, r.2)

/-- Fields of `class WglSwtCanvasContext`. -/
structure WglSwtCanvasContext where
  _hwnd : Handle
  _hdc : Handle
  _hglrc : Handle
deriving DecidableEq, Repr

/-- Constructor `WglSwtCanvasContext(env,hwnd,hdc)`. -/
def WglSwtCanvasContext.new (hwnd hdc : Handle) : WglSwtCanvasContext :=
  { _hwnd := hwnd, _hdc := hdc, _hglrc := 0 }

/-- Destructor `~WglSwtCanvasContext`. -/
def WglSwtCanvasContext.destructor (c : WglSwtCanvasContext) : List Call :=
  if c._hglrc ≠ 0 then [.wglDeleteContext c._hglrc] else []

/-- Method `WglSwtCanvasContext::makeCurrent`. -/
def WglSwtCanvasContext.makeCurrent (c : WglSwtCanvasContext) (flag : Bool) (n : Natives) :
    Option (WglSwtCanvasContext × List Call) :=
  let hglrc := if c._hglrc = 0 then n.wglCreateContext else c._hglrc
  some ({ c with _hglrc := hglrc },
    (if c._hglrc = 0 then
      [.ChoosePixelFormat (some c._hdc) pfd n.ChoosePixelFormat,
       .SetPixelFormat (some c._hdc) n.ChoosePixelFormat pfd,
       .wglCreateContext (some c._hdc) n.wglCreateContext]
     else [])
    ++ [if flag then .wglMakeCurrent (some c._hdc) hglrc
        else .wglMakeCurrent (some c._hdc) 0])

/-- Method `WglSwtCanvasContext::swapBuffers`. -/
def WglSwtCanvasContext.swapBuffers (c : WglSwtCanvasContext) (n : Natives) :
    Option (Bool × WglSwtCanvasContext × List Call) :=
  some (true, c, [.SwapBuffers (some c._hdc) n.SwapBuffers])

/-- Fields of `class GlxSwtCanvasContext`. -/
structure GlxSwtCanvasContext where
  _xdisplay : Handle
  _xdrawable : Handle
  _context : Handle
deriving DecidableEq, Repr

/-- Constructor `GlxSwtCanvasContext(env,xdisplay,xdrawable)`. -/
def GlxSwtCanvasContext.new (xdisplay xdrawable : Handle) : GlxSwtCanvasContext :=
  { _xdisplay := xdisplay, _xdrawable := xdrawable, _context := 0 }

/-- Destructor `~GlxSwtCanvasContext`. -/
def GlxSwtCanvasContext.destructor (c : GlxSwtCanvasContext) : List Call :=
  if c._context ≠ 0 then [.glXDestroyContext (some c._xdisplay) c._context] else []

/-- Method `GlxSwtCanvasContext::makeCurrent`. -/
def GlxSwtCanvasContext.makeCurrent (c : GlxSwtCanvasContext) (flag : Bool) (n : Natives) :
    Option (GlxSwtCanvasContext × List Call) :=
  let context := if c._context = 0 then n.glXCreateContext else c._context
  some ({ c with _context := context },
    (if c._context = 0 then
      [.DefaultScreen (some c._xdisplay) n.DefaultScreen,
       .glXChooseVisual (some c._xdisplay) n.DefaultScreen config n.glXChooseVisual,
       .glXCreateContext (some c._xdisplay) n.glXChooseVisual 0 true n.glXCreateContext]
     else [])
    ++ (if flag then
          [.glXMakeCurrent (some c._xdisplay) (some c._xdrawable) context, .glXWaitX]
        else
          [.glXWaitGL, .glXMakeCurrent (some c._xdisplay) (some 0) 0]))

/-- Method `GlxSwtCanvasContext::swapBuffers`. -/
def GlxSwtCanvasContext.swapBuffers (c : GlxSwtCanvasContext) (_n : Natives) :
    Option (Bool × GlxSwtCanvasContext × List Call) :=
  some (true, c, [.glXSwapBuffers (some c._xdisplay) (some c._xdrawable)])

/-! ## `GlContext`: the four concrete classes behind the abstract interface -/

/-- An object of one of the four concrete classes derived from `class GlContext`. -/
inductive GlContext where
  | wglAwt (c : WglAwtCanvasContext)
  | glxAwt (c : GlxAwtCanvasContext)
  | wglSwt (c : WglSwtCanvasContext)
  | glxSwt (c : GlxSwtCanvasContext)
deriving DecidableEq, Repr

/-- Retag the object inside a method result. -/
def GlContext.wrap {σ : Type} (f : σ → GlContext) (r : Option (Bool × σ × List Call)) :
    Option (Bool × GlContext × List Call) :=
  r.map fun x => (x.1, f x.2.1, x.2.2)

/-- Virtual `lock`. -/
def GlContext.lock : GlContext → Natives → Option (Bool × GlContext × List Call)
  | .wglAwt c, n => GlContext.wrap .wglAwt (c.lock n)
  | .glxAwt c, n => GlContext.wrap .glxAwt (c.lock n)
  | .wglSwt c, n =>
    GlContext.wrap .wglSwt (GlSwtCanvasContext.lock WglSwtCanvasContext.makeCurrent c n)
  | .glxSwt c, n =>
    GlContext.wrap .glxSwt (GlSwtCanvasContext.lock GlxSwtCanvasContext.makeCurrent c n)

/-- Virtual `unlock`. -/
def GlContext.unlock : GlContext → Natives → Option (Bool × GlContext × List Call)
  | .wglAwt c, n => GlContext.wrap .wglAwt (c.unlock n)
  | .glxAwt c, n => GlContext.wrap .glxAwt (c.unlock n)
  | .wglSwt c, n =>
    GlContext.wrap .wglSwt (GlSwtCanvasContext.unlock WglSwtCanvasContext.makeCurrent c n)
  | .glxSwt c, n =>
    GlContext.wrap .glxSwt (GlSwtCanvasContext.unlock GlxSwtCanvasContext.makeCurrent c n)

/-- Virtual `swapBuffers`. -/
def GlContext.swapBuffers : GlContext → Natives → Option (Bool × GlContext × List Call)
  | .wglAwt c, n => GlContext.wrap .wglAwt (c.swapBuffers n)
  | .glxAwt c, n => GlContext.wrap .glxAwt (c.swapBuffers n)
  | .wglSwt c, n => GlContext.wrap .wglSwt (c.swapBuffers n)
  | .glxSwt c, n => GlContext.wrap .glxSwt (c.swapBuffers n)

/-- The statement `delete context` of `killGlContext`: the virtual destructor. -/
def GlContext.killGlContext : GlContext → List Call
  | .wglAwt c => c.destructor
  | .glxAwt c => c.destructor
  | .wglSwt c => c.destructor
  | .glxSwt c => c.destructor

/-- The preprocessor's platform selection. -/
inductive Platform where
  | MWIN
  | XWIN
deriving DecidableEq, Repr

/-- JNI entry `makeGlAwtCanvasContext`. -/
def makeGlAwtCanvasContext (p : Platform) (canvas ref : Handle) : GlContext × List Call :=
  match p with
  | .MWIN =>
    (.wglAwt (WglAwtCanvasContext.new canvas ref).1, (WglAwtCanvasContext.new canvas ref).2)
  | .XWIN =>
    (.glxAwt (GlxAwtCanvasContext.new canvas ref).1, (GlxAwtCanvasContext.new canvas ref).2)

/-- JNI entry `makeGlSwtCanvasContext`. -/
def makeGlSwtCanvasContext (p : Platform) (xdisplay xdrawable hwnd hdc : Handle) : GlContext :=
  match p with
  | .MWIN => .wglSwt (WglSwtCanvasContext.new hwnd hdc)
  | .XWIN => .glxSwt (GlxSwtCanvasContext.new xdisplay xdrawable)

/-- The three operations a caller can invoke between creation and destruction. -/
inductive Op where
  | lock
  | unlock
  | swapBuffers
deriving DecidableEq, Repr

/-- One operation on a context. -/
def GlContext.step (c : GlContext) : Op → Natives → Option (Bool × GlContext × List Call)
  | .lock, n => c.lock n
  | .unlock, n => c.unlock n
  | .swapBuffers, n => c.swapBuffers n

/-- A sequence of operations, each with the outcomes of its native calls: the final
object, the operations with the boolean each returned, and all native calls in order. -/
def GlContext.run : GlContext → List (Op × Natives) →
    Option (GlContext × List (Op × Bool) × List Call)
  | c, [] => some (c, [], [])
  | c, (op, n) :: rest =>
    match c.step op n with
    | none => none
    | some r =>
      match GlContext.run r.2.1 rest with
      | none => none
      | some q => some (q.1, (op, r.1) :: q.2.1, r.2.2 ++ q.2.2)

/-! ## Observations on call traces -/

/-- The two AWT classes (first-toolkit contexts). -/
def GlContext.isAwt : GlContext → Bool
  | .wglAwt _ => true
  | .glxAwt _ => true
  | _ => false

/-- The cached native rendering-context handle (`_hglrc`, `_context`). -/
def GlContext.handle : GlContext → Handle
  | .wglAwt c => c._hglrc
  | .glxAwt c => c._context
  | .wglSwt c => c._hglrc
  | .glxSwt c => c._context

/-- A make-current call (`wglMakeCurrent`, `glXMakeCurrent`). -/
def Call.isMakeCurrent : Call → Bool
  | .wglMakeCurrent _ _ => true
  | .glXMakeCurrent _ _ _ => true
  | _ => false

/-- A make-current call whose context argument is null. -/
def Call.isUnbind : Call → Bool
  | .wglMakeCurrent _ h => h == 0
  | .glXMakeCurrent _ _ ctx => ctx == 0
  | _ => false

/-- The handle returned by a native context-creation call. -/
def Call.created : Call → Option Handle
  | .wglCreateContext _ r => some r
  | .glXCreateContext _ _ _ _ r => some r
  | _ => none

/-- The results of the native context-creation calls of a trace, in order. -/
def creations (cs : List Call) : List Handle :=
  cs.filterMap Call.created

/-- A native context-deletion call (`wglDeleteContext`, `glXDestroyContext`). -/
def Call.isDeletion : Call → Bool
  | .wglDeleteContext _ => true
  | .glXDestroyContext _ _ => true
  | _ => false

/-- A call to the WGL/GDI or GLX/Xlib layer. -/
def Call.isGlNative : Call → Bool
  | .ChoosePixelFormat _ _ _ => true
  | .SetPixelFormat _ _ _ => true
  | .wglCreateContext _ _ => true
  | .wglMakeCurrent _ _ => true
  | .SwapBuffers _ _ => true
  | .wglDeleteContext _ => true
  | .DefaultScreen _ _ => true
  | .glXChooseVisual _ _ _ _ => true
  | .glXCreateContext _ _ _ _ _ => true
  | .glXMakeCurrent _ _ _ => true
  | .glXWaitX => true
  | .glXWaitGL => true
  | .glXSwapBuffers _ _ => true
  | .glXDestroyContext _ _ => true
  | _ => false

/-- A successful `Lock` of a drawing surface: the surface lock is now held. -/
def Call.takesLock : Call → Bool
  | .Lock _ r => r &&& JAWT_LOCK_ERROR == 0
  | _ => false

/-- An `Unlock` of a drawing surface. -/
def Call.releasesLock : Call → Bool
  | .Unlock _ => true
  | _ => false

/-- A `GetDrawingSurface` that returned a surface. -/
def Call.obtainsSurface : Call → Bool
  | .GetDrawingSurface _ (some _) => true
  | _ => false

/-- A `FreeDrawingSurface`. -/
def Call.freesSurface : Call → Bool
  | .FreeDrawingSurface _ => true
  | _ => false

/-- A `GetDrawingSurfaceInfo` that returned an info block. -/
def Call.obtainsInfo : Call → Bool
  | .GetDrawingSurfaceInfo _ (some _) => true
  | _ => false

/-- A `FreeDrawingSurfaceInfo`. -/
def Call.freesInfo : Call → Bool
  | .FreeDrawingSurfaceInfo _ _ => true
  | _ => false

/-- Surface locks taken and not yet released over a trace. -/
def locksHeld (cs : List Call) : Int :=
  (cs.countP Call.takesLock : Int) - (cs.countP Call.releasesLock : Int)

/-- Drawing surfaces obtained and not yet freed over a trace. -/
def surfacesHeld (cs : List Call) : Int :=
  (cs.countP Call.obtainsSurface : Int) - (cs.countP Call.freesSurface : Int)

/-- Surface-info blocks obtained and not yet freed over a trace. -/
def infosHeld (cs : List Call) : Int :=
  (cs.countP Call.obtainsInfo : Int) - (cs.countP Call.freesInfo : Int)

/-- Virtual `makeCurrent` (protected in `class GlContext`). -/
def GlContext.makeCurrent : GlContext → Bool → Natives → Option (GlContext × List Call)
  | .wglAwt c, flag, n => (c.makeCurrent flag n).map fun r => (.wglAwt r.1, r.2)
  | .glxAwt c, flag, n => (c.makeCurrent flag n).map fun r => (.glxAwt r.1, r.2)
  | .wglSwt c, flag, n => (c.makeCurrent flag n).map fun r => (.wglSwt r.1, r.2)
  | .glxSwt c, flag, n => (c.makeCurrent flag n).map fun r => (.glxSwt r.1, r.2)

/-- Replays a list of creation results against a cached handle: a creation may only
happen while the cached handle is null, and its result becomes the cached handle. -/
def lazyCreate (h : Handle) : List Handle → Option Handle
  | [] => some h
  | x :: l => if h = 0 then lazyCreate x l else none

/-- The object with the two surface pointers of its AWT base part replaced (an SWT
object has none and is left as it is). -/
def GlContext.withSurface (c : GlContext) (ds : Ptr Handle)
    (dsi : Ptr JAWT_DrawingSurfaceInfo) : GlContext :=
  match c with
  | .wglAwt w => .wglAwt { w with _ds := ds, _dsi := dsi }
  | .glxAwt g => .glxAwt { g with _ds := ds, _dsi := dsi }
  | .wglSwt w => .wglSwt w
  | .glxSwt g => .glxSwt g

/-- The drawing-surface pointer of an AWT object. -/
def GlContext.ds : GlContext → Ptr Handle
  | .wglAwt w => w._ds
  | .glxAwt g => g._ds
  | _ => .uninit

/-- The surface-info pointer of an AWT object. -/
def GlContext.dsi : GlContext → Ptr JAWT_DrawingSurfaceInfo
  | .wglAwt w => w._dsi
  | .glxAwt g => g._dsi
  | _ => .uninit

/-- The last make-current call of a trace, if any. -/
def lastMakeCurrent (cs : List Call) : Option Call :=
  (cs.filter Call.isMakeCurrent).getLast?

/-- A call to the JAWT drawing-surface interface. -/
def Call.isSurfaceCall : Call → Bool
  | .JAWT_GetAWT _ => true
  | .GetDrawingSurface _ _ => true
  | .Lock _ _ => true
  | .GetDrawingSurfaceInfo _ _ => true
  | .FreeDrawingSurfaceInfo _ _ => true
  | .Unlock _ => true
  | .FreeDrawingSurface _ => true
  | _ => false

/-- The graphics-pipeline wait `glXWaitGL`. -/
def Call.isWaitGL : Call → Bool
  | .glXWaitGL => true
  | _ => false

/-- The calls of a trace that come before its first `glXWaitGL`. -/
def beforeWaitGL (cs : List Call) : List Call :=
  cs.takeWhile fun e => !e.isWaitGL

/-- A deactivation trace issues `glXWaitGL` and no make-current call before it. -/
def waitsThenUnbinds (cs : List Call) : Bool :=
  cs.any Call.isWaitGL && (beforeWaitGL cs).all fun e => !e.isMakeCurrent

/-- The protocol states of the specification's state machine (section 4.3), without the
terminal state. -/
inductive Activation where
  | Inactive
  | Active
deriving DecidableEq, Repr

/-- The specification's transition on one returned operation: a successful lock
activates, a failed lock leaves the state, unlock deactivates, a swap is a self-loop.
This follows the specification's words and is only used to state its claim about
swapBuffers. -/
def specNext : Activation → Op × Bool → Activation
  | _, (.lock, true) => .Active
  | s, (.lock, false) => s
  | _, (.unlock, _) => .Inactive
  | s, (.swapBuffers, _) => s

/-- The specification's protocol state after a history of returned operations on a new
context. -/
def specActivation (hist : List (Op × Bool)) : Activation :=
  hist.foldl specNext .Inactive

/-- The surface-acquisition steps of `GlAwtCanvasContext::lock` all succeed under `n`. -/
def Natives.acquires (n : Natives) : Bool :=
  n.JAWT_GetAWT && n.GetDrawingSurface.isSome && (n.Lock &&& JAWT_LOCK_ERROR == 0) &&
    n.GetDrawingSurfaceInfo.isSome

/-- A call releasing a JNI global reference. -/
def Call.isDeleteGlobalRef : Call → Bool
  | .DeleteGlobalRef _ => true
  | _ => false

/-- Provenance of the display of an X11 AWT context with respect to the calls made so
far: a live surface-info pointer was returned by a recorded `GetDrawingSurfaceInfo`,
and if the cached context is non-null then the display and drawable fields hold the
values of an X11 block returned by a recorded `GetDrawingSurfaceInfo`. -/
def GlxAwtCanvasContext.Assigned (g : GlxAwtCanvasContext) (t : List Call) : Prop :=
  (∀ dsi, g._dsi = .live dsi → ∃ ds, Call.GetDrawingSurfaceInfo ds (some dsi) ∈ t) ∧
  (g._context ≠ 0 → ∃ ds x, Call.GetDrawingSurfaceInfo ds (some ⟨.x11 x⟩) ∈ t ∧
    g._display = some x.display ∧ g._drawable = some x.drawable)

/-- The canvas reference held by an AWT object (an SWT object holds none). -/
def GlContext.canvas : GlContext → Option Handle
  | .wglAwt w => some w._canvas
  | .glxAwt g => some g._canvas
  | _ => none

/-- Effect of one call on the surfaces whose lock is held: a `Lock` without the error
bit adds its surface, an `Unlock` removes the surface it names. -/
def lockStep (held : List Handle) : Call → List Handle
  | .Lock ds r => if r &&& JAWT_LOCK_ERROR = 0 then ds :: held else held
  | .Unlock ds => held.erase ds
  | _ => held

/-- The surfaces whose lock is held after a trace, given those held before it. -/
def locksAfter (held : List Handle) (cs : List Call) : List Handle :=
  cs.foldl lockStep held

/-- Effect of one call on the drawing surfaces held: a `GetDrawingSurface` that returns
a surface adds it, a `FreeDrawingSurface` removes the surface it names. -/
def surfaceStep (held : List Handle) : Call → List Handle
  | .GetDrawingSurface _ (some ds) => ds :: held
  | .FreeDrawingSurface ds => held.erase ds
  | _ => held

/-- The drawing surfaces held after a trace, given those held before it. -/
def surfacesAfter (held : List Handle) (cs : List Call) : List Handle :=
  cs.foldl surfaceStep held

/-- Effect of one call on the surface-info blocks held, each with its surface. -/
def infoStep (held : List (Handle × JAWT_DrawingSurfaceInfo)) :
    Call → List (Handle × JAWT_DrawingSurfaceInfo)
  | .GetDrawingSurfaceInfo ds (some dsi) => (ds, dsi) :: held
  | .FreeDrawingSurfaceInfo ds dsi => held.erase (ds, dsi)
  | _ => held

/-- The surface-info blocks held after a trace, given those held before it. -/
def infosAfter (held : List (Handle × JAWT_DrawingSurfaceInfo)) (cs : List Call) :
    List (Handle × JAWT_DrawingSurfaceInfo) :=
  cs.foldl infoStep held

/-- The context handle a native context-deletion call deletes. -/
def Call.deleted : Call → Option Handle
  | .wglDeleteContext h => some h
  | .glXDestroyContext _ h => some h
  | _ => none

/-- The global reference a `DeleteGlobalRef` call releases. -/
def Call.releasedRef : Call → Option Handle
  | .DeleteGlobalRef r => some r
  | _ => none

/-- The number of operations of a history that ran `makeCurrent`: every unlock and
every lock that returned true. -/
def makeCurrentSteps (hist : List (Op × Bool)) : Nat :=
  hist.countP fun e => e.1 == Op.unlock || (e.1 == Op.lock && e.2)

/-- The display argument of a `glXDestroyContext` call. -/
def Call.deletedOn : Call → Option (Option Handle)
  | .glXDestroyContext display _ => some display
  | _ => none

/-- The display field of an X11 object (`_display`, `_xdisplay`); a Windows object has
none. -/
def GlContext.display : GlContext → Option (Option Handle)
  | .glxAwt g => some g._display
  | .glxSwt g => some (some g._xdisplay)
  | _ => none

/-! ## Sample environments -/

/-- Outcomes in which every native call succeeds, on Microsoft Windows. -/
def nativesOk : Natives :=
  { JAWT_GetAWT := true
    GetDrawingSurface := some 11
    Lock := 0
    GetDrawingSurfaceInfo := some ⟨.win32 ⟨21, 22⟩⟩
    ChoosePixelFormat := 1
    wglCreateContext := 31
    SwapBuffers := true
    DefaultScreen := 0
    glXChooseVisual := 41
    glXCreateContext := 51 }

/-- Outcomes in which every native call succeeds, on X Windows. -/
def nativesOkX11 : Natives :=
  { nativesOk with GetDrawingSurfaceInfo := some ⟨.x11 ⟨23, 24⟩⟩ }

/-- Outcomes in which native context creation returns a null handle. -/
def nativesNoContext : Natives :=
  { nativesOk with wglCreateContext := 0, glXCreateContext := 0 }

/-- Outcomes in which the native `SwapBuffers` reports failure. -/
def nativesSwapFails : Natives :=
  { nativesOk with SwapBuffers := false }

/-- Outcomes in which the surface is locked but its info cannot be obtained. -/
def nativesNoInfo : Natives :=
  { nativesOk with GetDrawingSurfaceInfo := none }

/-- A new Windows AWT context for canvas 5, global reference 6. -/
def sampleWglAwt : GlContext := (makeGlAwtCanvasContext .MWIN 5 6).1

/-- A new X11 AWT context for canvas 5, global reference 6. -/
def sampleGlxAwt : GlContext := (makeGlAwtCanvasContext .XWIN 5 6).1

/-- A new Windows SWT context for window 1 and device context 2. -/
def sampleWglSwt : GlContext := makeGlSwtCanvasContext .MWIN 0 0 1 2

/-- An X11 SWT context for display 3 and drawable 4 that already caches context 51. -/
def sampleGlxSwt : GlContext := .glxSwt ⟨3, 4, 51⟩

/-- Two lock/unlock cycles; native creation fails in the first lock only. -/
def sampleCycles : List (Op × Natives) :=
  [(.lock, nativesNoContext), (.unlock, nativesOk), (.lock, nativesOk), (.unlock, nativesOk)]

/-- Two lock/unlock cycles in which native creation always returns a null handle. -/
def sampleCyclesNoContext : List (Op × Natives) :=
  [(.lock, nativesNoContext), (.unlock, nativesNoContext),
   (.lock, nativesNoContext), (.unlock, nativesNoContext)]

/-- A lock that would cache handle 77 if it created a context, a swap, an unlock. -/
def sampleUse : List (Op × Natives) :=
  [(.lock, { nativesOkX11 with glXCreateContext := 77 }), (.swapBuffers, nativesOkX11),
   (.unlock, nativesNoContext)]

/-- The Windows AWT context right after its first successful lock under `nativesOk`. -/
def sampleLockedWglAwt : GlContext :=
  .wglAwt
    { _canvas := 6, _ds := .live 11, _dsi := .live ⟨.win32 ⟨21, 22⟩⟩
      _dsi_win32 := some ⟨21, 22⟩, _hwnd := some 21, _hdc := some 22, _hglrc := 31 }

/-- The native calls of that first lock. -/
def sampleLockTrace : List Call :=
  [.JAWT_GetAWT true, .GetDrawingSurface 6 (some 11), .Lock 11 0,
   .GetDrawingSurfaceInfo 11 (some ⟨.win32 ⟨21, 22⟩⟩),
   .ChoosePixelFormat (some 22) pfd 1, .SetPixelFormat (some 22) 1 pfd,
   .wglCreateContext (some 22) 31, .wglMakeCurrent (some 22) 31]

/-- The Windows AWT context after the unlock that follows. -/
def sampleUnlockedWglAwt : GlContext :=
  .wglAwt
    { _canvas := 6, _ds := .freed 11, _dsi := .freed ⟨.win32 ⟨21, 22⟩⟩
      _dsi_win32 := some ⟨21, 22⟩, _hwnd := some 21, _hdc := some 22, _hglrc := 31 }

/-- The native calls of that unlock. -/
def sampleUnlockTrace : List Call :=
  [.wglMakeCurrent (some 22) 0, .FreeDrawingSurfaceInfo 11 ⟨.win32 ⟨21, 22⟩⟩,
   .Unlock 11, .FreeDrawingSurface 11]

/-! ## Theorems -/

/-- C1: in an AWT context, when one of the four acquisition steps of lock fails, lock
returns false and its trace is exactly: the failed `JAWT_GetAWT`; or the failed
`GetDrawingSurface`; or `GetDrawingSurface`, the failed `Lock`, then `FreeDrawingSurface`
of that surface; or `GetDrawingSurface`, `Lock`, the failed `GetDrawingSurfaceInfo`, then
`Unlock` and `FreeDrawingSurface` of that surface. So no make-current call is issued, and
replaying the trace from any set of held locks, surfaces and infos gives that set back:
what the attempt acquired it released, by handle and after the acquisition. -/
theorem lock_failure_unwinds (c : GlContext) (n : Natives) (hawt : c.isAwt = true)
    (hfail : n.JAWT_GetAWT = false ∨ n.GetDrawingSurface = none ∨
      n.Lock &&& JAWT_LOCK_ERROR ≠ 0 ∨ n.GetDrawingSurfaceInfo = none) :
    ∃ c1 cs canvas, c.lock n = some (false, c1, cs) ∧ c.canvas = some canvas ∧
      (cs = [.JAWT_GetAWT false, .trace "GlAwtCanvasContext.lock: cannot get AWT"] ∨
       cs = [.JAWT_GetAWT true, .GetDrawingSurface canvas none,
             .trace "GlAwtCanvasContext.lock: cannot get DrawingSurface"] ∨
       (∃ ds, n.Lock &&& JAWT_LOCK_ERROR ≠ 0 ∧
         cs = [.JAWT_GetAWT true, .GetDrawingSurface canvas (some ds), .Lock ds n.Lock,
               .trace "GlAwtCanvasContext.lock: cannot lock DrawingSurface",
               .FreeDrawingSurface ds]) ∨
       (∃ ds, n.Lock &&& JAWT_LOCK_ERROR = 0 ∧
         cs = [.JAWT_GetAWT true, .GetDrawingSurface canvas (some ds), .Lock ds n.Lock,
               .GetDrawingSurfaceInfo ds none,
               .trace "GlAwtCanvasContext.lock: cannot get DrawingSurfaceInfo",
               .Unlock ds, .FreeDrawingSurface ds])) ∧
      (∀ e ∈ cs, e.isMakeCurrent = false) ∧
      (∀ held, locksAfter held cs = held) ∧
      (∀ held, surfacesAfter held cs = held) ∧
      (∀ held, infosAfter held cs = held) ∧
      cs.countP Call.releasesLock = cs.countP Call.takesLock ∧
      cs.countP Call.freesSurface = cs.countP Call.obtainsSurface ∧
      locksHeld cs = 0 ∧ surfacesHeld cs = 0 := by
  have key : ∀ {σ : Type} (base : σ → GlAwtCanvasContext)
      (setBase : σ → GlAwtCanvasContext → σ)
      (mc : σ → Bool → Natives → Option (σ × List Call)) (x : σ),
      ∃ x1 cs, GlAwtCanvasContext.lock base setBase mc x n = some (false, x1, cs) ∧
        (cs = [.JAWT_GetAWT false, .trace "GlAwtCanvasContext.lock: cannot get AWT"] ∨
         cs = [.JAWT_GetAWT true, .GetDrawingSurface (base x)._canvas none,
               .trace "GlAwtCanvasContext.lock: cannot get DrawingSurface"] ∨
         (∃ ds, n.Lock &&& JAWT_LOCK_ERROR ≠ 0 ∧
           cs = [.JAWT_GetAWT true, .GetDrawingSurface (base x)._canvas (some ds),
                 .Lock ds n.Lock,
                 .trace "GlAwtCanvasContext.lock: cannot lock DrawingSurface",
                 .FreeDrawingSurface ds]) ∨
         (∃ ds, n.Lock &&& JAWT_LOCK_ERROR = 0 ∧
           cs = [.JAWT_GetAWT true, .GetDrawingSurface (base x)._canvas (some ds),
                 .Lock ds n.Lock, .GetDrawingSurfaceInfo ds none,
                 .trace "GlAwtCanvasContext.lock: cannot get DrawingSurfaceInfo",
                 .Unlock ds, .FreeDrawingSurface ds])) := by
    intro σ base setBase mc x
    unfold GlAwtCanvasContext.lock
    by_cases h1 : n.JAWT_GetAWT = false
    · rw [if_pos h1]
      exact ⟨_, _, rfl, Or.inl rfl⟩
    · rw [if_neg h1]
      cases h2 : n.GetDrawingSurface with
      | none => exact ⟨_, _, rfl, Or.inr (Or.inl rfl)⟩
      | some ds =>
        by_cases h3 : n.Lock &&& JAWT_LOCK_ERROR ≠ 0
        · simp only [if_pos h3]
          exact ⟨_, _, rfl, Or.inr (Or.inr (Or.inl ⟨ds, h3, rfl⟩))⟩
        · simp only [if_neg h3]
          cases h4 : n.GetDrawingSurfaceInfo with
          | none =>
            have h3b : n.Lock &&& JAWT_LOCK_ERROR = 0 := by simpa using h3
            exact ⟨_, _, rfl, Or.inr (Or.inr (Or.inr ⟨ds, h3b, rfl⟩))⟩
          | some dsi =>
            rcases hfail with h | h | h | h
            · exact absurd h h1
            · simp [h2] at h
            · exact absurd h h3
            · simp [h4] at h
  have fin : ∀ {σ : Type} (f : σ → GlContext) (r : Option (Bool × σ × List Call))
      (canvas : Handle),
      (∃ x1 cs, r = some (false, x1, cs) ∧
        (cs = [.JAWT_GetAWT false, .trace "GlAwtCanvasContext.lock: cannot get AWT"] ∨
         cs = [.JAWT_GetAWT true, .GetDrawingSurface canvas none,
               .trace "GlAwtCanvasContext.lock: cannot get DrawingSurface"] ∨
         (∃ ds, n.Lock &&& JAWT_LOCK_ERROR ≠ 0 ∧
           cs = [.JAWT_GetAWT true, .GetDrawingSurface canvas (some ds), .Lock ds n.Lock,
                 .trace "GlAwtCanvasContext.lock: cannot lock DrawingSurface",
                 .FreeDrawingSurface ds]) ∨
         (∃ ds, n.Lock &&& JAWT_LOCK_ERROR = 0 ∧
           cs = [.JAWT_GetAWT true, .GetDrawingSurface canvas (some ds), .Lock ds n.Lock,
                 .GetDrawingSurfaceInfo ds none,
                 .trace "GlAwtCanvasContext.lock: cannot get DrawingSurfaceInfo",
                 .Unlock ds, .FreeDrawingSurface ds]))) →
      ∃ c1 cs, GlContext.wrap f r = some (false, c1, cs) ∧
        (cs = [.JAWT_GetAWT false, .trace "GlAwtCanvasContext.lock: cannot get AWT"] ∨
         cs = [.JAWT_GetAWT true, .GetDrawingSurface canvas none,
               .trace "GlAwtCanvasContext.lock: cannot get DrawingSurface"] ∨
         (∃ ds, n.Lock &&& JAWT_LOCK_ERROR ≠ 0 ∧
           cs = [.JAWT_GetAWT true, .GetDrawingSurface canvas (some ds), .Lock ds n.Lock,
                 .trace "GlAwtCanvasContext.lock: cannot lock DrawingSurface",
                 .FreeDrawingSurface ds]) ∨
         (∃ ds, n.Lock &&& JAWT_LOCK_ERROR = 0 ∧
           cs = [.JAWT_GetAWT true, .GetDrawingSurface canvas (some ds), .Lock ds n.Lock,
                 .GetDrawingSurfaceInfo ds none,
                 .trace "GlAwtCanvasContext.lock: cannot get DrawingSurfaceInfo",
                 .Unlock ds, .FreeDrawingSurface ds])) ∧
        (∀ e ∈ cs, e.isMakeCurrent = false) ∧
        (∀ held, locksAfter held cs = held) ∧
        (∀ held, surfacesAfter held cs = held) ∧
        (∀ held, infosAfter held cs = held) ∧
        cs.countP Call.releasesLock = cs.countP Call.takesLock ∧
        cs.countP Call.freesSurface = cs.countP Call.obtainsSurface ∧
        locksHeld cs = 0 ∧ surfacesHeld cs = 0 := by
    rintro σ f r canvas ⟨x1, cs, rfl, hcs⟩
    refine ⟨f x1, cs, rfl, hcs, ?_⟩
    rcases hcs with rfl | rfl | ⟨ds, h3, rfl⟩ | ⟨ds, h3, rfl⟩
    · simp [Call.isMakeCurrent, locksAfter, lockStep, surfacesAfter, surfaceStep,
        infosAfter, infoStep, Call.releasesLock, Call.takesLock, Call.freesSurface,
        Call.obtainsSurface, locksHeld, surfacesHeld]
    · simp [Call.isMakeCurrent, locksAfter, lockStep, surfacesAfter, surfaceStep,
        infosAfter, infoStep, Call.releasesLock, Call.takesLock, Call.freesSurface,
        Call.obtainsSurface, locksHeld, surfacesHeld]
    · simp [Call.isMakeCurrent, locksAfter, lockStep, surfacesAfter, surfaceStep,
        infosAfter, infoStep, Call.releasesLock, Call.takesLock, Call.freesSurface,
        Call.obtainsSurface, locksHeld, surfacesHeld, h3]
    · simp [Call.isMakeCurrent, locksAfter, lockStep, surfacesAfter, surfaceStep,
        infosAfter, infoStep, Call.releasesLock, Call.takesLock, Call.freesSurface,
        Call.obtainsSurface, locksHeld, surfacesHeld, h3]
  cases c with
  | wglAwt w =>
    obtain ⟨c1, cs, h⟩ := fin GlContext.wglAwt _ w._canvas (key _ _ _ w)
    exact ⟨c1, cs, w._canvas, h.1, rfl, h.2⟩
  | glxAwt g =>
    obtain ⟨c1, cs, h⟩ := fin GlContext.glxAwt _ g._canvas (key _ _ _ g)
    exact ⟨c1, cs, g._canvas, h.1, rfl, h.2⟩
  | wglSwt w => simp [GlContext.isAwt] at hawt
  | glxSwt g => simp [GlContext.isAwt] at hawt

/-- Witness for C1: a new Windows AWT context whose surface-info request fails, after
the surface 11 was obtained and locked. -/
theorem lock_failure_unwinds_witness :
    ∃ c1 cs canvas, sampleWglAwt.lock nativesNoInfo = some (false, c1, cs) ∧
      sampleWglAwt.canvas = some canvas ∧
      (cs = [.JAWT_GetAWT false, .trace "GlAwtCanvasContext.lock: cannot get AWT"] ∨
       cs = [.JAWT_GetAWT true, .GetDrawingSurface canvas none,
             .trace "GlAwtCanvasContext.lock: cannot get DrawingSurface"] ∨
       (∃ ds, nativesNoInfo.Lock &&& JAWT_LOCK_ERROR ≠ 0 ∧
         cs = [.JAWT_GetAWT true, .GetDrawingSurface canvas (some ds),
               .Lock ds nativesNoInfo.Lock,
               .trace "GlAwtCanvasContext.lock: cannot lock DrawingSurface",
               .FreeDrawingSurface ds]) ∨
       (∃ ds, nativesNoInfo.Lock &&& JAWT_LOCK_ERROR = 0 ∧
         cs = [.JAWT_GetAWT true, .GetDrawingSurface canvas (some ds),
               .Lock ds nativesNoInfo.Lock, .GetDrawingSurfaceInfo ds none,
               .trace "GlAwtCanvasContext.lock: cannot get DrawingSurfaceInfo",
               .Unlock ds, .FreeDrawingSurface ds])) ∧
      (∀ e ∈ cs, e.isMakeCurrent = false) ∧
      (∀ held, locksAfter held cs = held) ∧
      (∀ held, surfacesAfter held cs = held) ∧
      (∀ held, infosAfter held cs = held) ∧
      cs.countP Call.releasesLock = cs.countP Call.takesLock ∧
      cs.countP Call.freesSurface = cs.countP Call.obtainsSurface ∧
      locksHeld cs = 0 ∧ surfacesHeld cs = 0 :=
  lock_failure_unwinds sampleWglAwt nativesNoInfo (by decide) (by decide)

/-! ### Lazy creation of the native rendering context -/

theorem lazyCreate_append (h : Handle) (l1 l2 : List Handle) :
    lazyCreate h (l1 ++ l2) = (lazyCreate h l1).bind fun k => lazyCreate k l2 := by
  induction l1 generalizing h with
  | nil => simp [lazyCreate]
  | cons x l ih =>
    by_cases hh : h = 0
    · simp [lazyCreate, hh, ih]
    · simp [lazyCreate, hh]

theorem lazyCreate_of_ne_zero {h k : Handle} {l : List Handle} (hh : h ≠ 0)
    (hl : lazyCreate h l = some k) : l = [] ∧ k = h := by
  cases l with
  | nil => simpa [lazyCreate, eq_comm] using hl
  | cons x l => simp [lazyCreate, hh] at hl

theorem lazyCreate_dropLast {h k : Handle} {l : List Handle}
    (hl : lazyCreate h l = some k) : ∀ x ∈ l.dropLast, x = 0 := by
  induction l generalizing h with
  | nil => simp
  | cons x l ih =>
    by_cases hh : h = 0
    · simp only [lazyCreate, hh, if_true] at hl
      cases l with
      | nil => simp
      | cons y l2 =>
        intro z hz
        rw [List.dropLast_cons₂, List.mem_cons] at hz
        rcases hz with rfl | hz
        · by_contra hne
          exact absurd (lazyCreate_of_ne_zero hne hl).1 (by simp)
        · exact ih hl z hz
    · simp [lazyCreate, hh] at hl

theorem lazyCreate_length {h k : Handle} {l : List Handle}
    (hl : lazyCreate h l = some k) : l.length ≤ l.count 0 + 1 := by
  induction l generalizing h with
  | nil => simp
  | cons x l ih =>
    by_cases hh : h = 0
    · simp only [lazyCreate, hh, if_true] at hl
      by_cases hx : x = 0
      · subst hx
        have := ih hl
        simp
        omega
      · have := (lazyCreate_of_ne_zero hx hl).1
        subst this
        simp
    · simp [lazyCreate, hh] at hl

theorem creations_append (a b : List Call) : creations (a ++ b) = creations a ++ creations b := by
  simp [creations]

theorem creations_of_not_native {cs : List Call} (h : ∀ e ∈ cs, e.isGlNative = false) :
    creations cs = [] := by
  simp only [creations, List.filterMap_eq_nil_iff]
  intro e he
  have := h e he
  cases e <;> simp_all [Call.created, Call.isGlNative]

/-! ### What a call of `lock` and `unlock` consists of -/

theorem GlAwtCanvasContext.lock_inv {σ : Type} (base : σ → GlAwtCanvasContext)
    (setBase : σ → GlAwtCanvasContext → σ)
    (mc : σ → Bool → Natives → Option (σ × List Call)) (x : σ) (n : Natives)
    {r : Bool} {x1 : σ} {cs : List Call}
    (h : GlAwtCanvasContext.lock base setBase mc x n = some (r, x1, cs)) :
    (r = false ∧ (x1 = x ∨ ∃ b, x1 = setBase x b ∧ b._canvas = (base x)._canvas ∧
        (b._dsi = (base x)._dsi ∨ b._dsi = .null)) ∧
      (∀ e ∈ cs, e.isGlNative = false) ∧ n.acquires = false) ∨
    (r = true ∧ ∃ ds dsi cs1, n.JAWT_GetAWT = true ∧ n.GetDrawingSurface = some ds ∧
      n.Lock &&& JAWT_LOCK_ERROR = 0 ∧ n.GetDrawingSurfaceInfo = some dsi ∧
      mc (setBase x { base x with _ds := .live ds, _dsi := .live dsi }) true n
        = some (x1, cs1) ∧
      cs = [.JAWT_GetAWT true, .GetDrawingSurface (base x)._canvas (some ds),
            .Lock ds n.Lock, .GetDrawingSurfaceInfo ds (some dsi)] ++ cs1) := by
  unfold GlAwtCanvasContext.lock at h
  by_cases h1 : n.JAWT_GetAWT = false
  · rw [if_pos h1] at h
    simp only [Option.some.injEq, Prod.mk.injEq] at h
    obtain ⟨rfl, rfl, rfl⟩ := h
    exact Or.inl ⟨rfl, Or.inl rfl, by simp [Call.isGlNative], by simp [Natives.acquires, h1]⟩
  · rw [if_neg h1] at h
    cases h2 : n.GetDrawingSurface with
    | none =>
      simp only [h2, Option.some.injEq, Prod.mk.injEq] at h
      obtain ⟨rfl, rfl, rfl⟩ := h
      exact Or.inl ⟨rfl, Or.inr ⟨_, rfl, rfl, Or.inl rfl⟩, by simp [Call.isGlNative],
        by simp [Natives.acquires, h2]⟩
    | some ds =>
      simp only [h2] at h
      by_cases h3 : n.Lock &&& JAWT_LOCK_ERROR ≠ 0
      · rw [if_pos h3] at h
        simp only [Option.some.injEq, Prod.mk.injEq] at h
        obtain ⟨rfl, rfl, rfl⟩ := h
        exact Or.inl ⟨rfl, Or.inr ⟨_, rfl, rfl, Or.inl rfl⟩, by simp [Call.isGlNative],
          by simp [Natives.acquires, h3]⟩
      · rw [if_neg h3] at h
        cases h4 : n.GetDrawingSurfaceInfo with
        | none =>
          simp only [h4, Option.some.injEq, Prod.mk.injEq] at h
          obtain ⟨rfl, rfl, rfl⟩ := h
          exact Or.inl ⟨rfl, Or.inr ⟨_, rfl, rfl, Or.inr rfl⟩, by simp [Call.isGlNative],
            by simp [Natives.acquires, h4]⟩
        | some dsi =>
          simp only [h4] at h
          cases h5 : mc (setBase x { base x with _ds := .live ds, _dsi := .live dsi })
              true n with
          | none => simp [h5] at h
          | some q =>
            simp only [h5, Option.some.injEq, Prod.mk.injEq] at h
            obtain ⟨rfl, rfl, rfl⟩ := h
            refine Or.inr ⟨rfl, ds, dsi, q.2, ?_, rfl, ?_, rfl, h5, rfl⟩
            · simpa using h1
            · simpa using h3

theorem GlAwtCanvasContext.unlock_inv {σ : Type} (base : σ → GlAwtCanvasContext)
    (setBase : σ → GlAwtCanvasContext → σ)
    (mc : σ → Bool → Natives → Option (σ × List Call)) (x : σ) (n : Natives)
    {r : Bool} {x1 : σ} {cs : List Call}
    (h : GlAwtCanvasContext.unlock base setBase mc x n = some (r, x1, cs)) :
    r = true ∧ ∃ y cs1 ds dsi, mc x false n = some (y, cs1) ∧
      (base y)._ds = .live ds ∧ (base y)._dsi = .live dsi ∧
      x1 = setBase y { base y with _ds := .freed ds, _dsi := .freed dsi } ∧
      cs = cs1 ++ [.FreeDrawingSurfaceInfo ds dsi, .Unlock ds, .FreeDrawingSurface ds] := by
  unfold GlAwtCanvasContext.unlock at h
  cases h1 : mc x false n with
  | none => simp [h1] at h
  | some q =>
    simp only [h1] at h
    split at h
    · rename_i ds dsi hds hdsi
      simp only [Option.some.injEq, Prod.mk.injEq] at h
      obtain ⟨rfl, rfl, rfl⟩ := h
      exact ⟨rfl, q.1, q.2, ds, dsi, rfl, hds, hdsi, rfl, rfl⟩
    · simp at h

theorem GlContext.wrap_eq_some {σ : Type} (f : σ → GlContext)
    {o : Option (Bool × σ × List Call)} {r : Bool} {c1 : GlContext} {cs : List Call}
    (h : GlContext.wrap f o = some (r, c1, cs)) :
    ∃ x, o = some (r, x, cs) ∧ c1 = f x := by
  cases o with
  | none => simp [GlContext.wrap] at h
  | some q =>
    simp only [GlContext.wrap, Option.map_some', Option.some.injEq, Prod.mk.injEq] at h
    obtain ⟨rfl, rfl, rfl⟩ := h
    exact ⟨q.2.1, rfl, rfl⟩

theorem GlContext.lock_cases {c c1 : GlContext} {n : Natives} {r : Bool} {cs : List Call}
    (h : c.lock n = some (r, c1, cs)) :
    (c.isAwt = true ∧ r = false ∧ (∃ p q, c1 = c.withSurface p q) ∧
      (∀ e ∈ cs, e.isGlNative = false) ∧ n.acquires = false) ∨
    (c.isAwt = true ∧ r = true ∧ ∃ canvas ds dsi cs1, n.JAWT_GetAWT = true ∧
      n.GetDrawingSurface = some ds ∧ n.Lock &&& JAWT_LOCK_ERROR = 0 ∧
      n.GetDrawingSurfaceInfo = some dsi ∧
      (c.withSurface (.live ds) (.live dsi)).makeCurrent true n = some (c1, cs1) ∧
      cs = [.JAWT_GetAWT true, .GetDrawingSurface canvas (some ds),
            .Lock ds n.Lock, .GetDrawingSurfaceInfo ds (some dsi)] ++ cs1) ∨
    (c.isAwt = false ∧ r = true ∧ c.makeCurrent true n = some (c1, cs)) := by
  cases c with
  | wglAwt w =>
    obtain ⟨x, hx, rfl⟩ := GlContext.wrap_eq_some _ h
    rcases GlAwtCanvasContext.lock_inv _ _ _ _ _ hx with ⟨rfl, hc, hn, hq⟩ |
      ⟨rfl, ds, dsi, cs1, h1, h2, h3, h4, h5, rfl⟩
    · refine Or.inl ⟨rfl, rfl, ?_, hn, hq⟩
      rcases hc with rfl | ⟨b, rfl, hb, -⟩
      · exact ⟨x._ds, x._dsi, rfl⟩
      · refine ⟨b._ds, b._dsi, ?_⟩
        cases b
        simp only at hb
        subst hb
        rfl
    · refine Or.inr (Or.inl ⟨rfl, rfl, _, ds, dsi, cs1, h1, h2, h3, h4, ?_, rfl⟩)
      simp only [GlContext.withSurface, GlContext.makeCurrent]
      rw [h5]; rfl
  | glxAwt g =>
    obtain ⟨x, hx, rfl⟩ := GlContext.wrap_eq_some _ h
    rcases GlAwtCanvasContext.lock_inv _ _ _ _ _ hx with ⟨rfl, hc, hn, hq⟩ |
      ⟨rfl, ds, dsi, cs1, h1, h2, h3, h4, h5, rfl⟩
    · refine Or.inl ⟨rfl, rfl, ?_, hn, hq⟩
      rcases hc with rfl | ⟨b, rfl, hb, -⟩
      · exact ⟨x._ds, x._dsi, rfl⟩
      · refine ⟨b._ds, b._dsi, ?_⟩
        cases b
        simp only at hb
        subst hb
        rfl
    · refine Or.inr (Or.inl ⟨rfl, rfl, _, ds, dsi, cs1, h1, h2, h3, h4, ?_, rfl⟩)
      simp only [GlContext.withSurface, GlContext.makeCurrent]
      rw [h5]; rfl
  | wglSwt w =>
    obtain ⟨x, hx, rfl⟩ := GlContext.wrap_eq_some _ h
    refine Or.inr (Or.inr ⟨rfl, ?_⟩)
    simp only [GlSwtCanvasContext.lock] at hx
    cases hm : WglSwtCanvasContext.makeCurrent w true n with
    | none => simp [hm] at hx
    | some q =>
      simp only [hm, Option.some.injEq, Prod.mk.injEq] at hx
      obtain ⟨rfl, rfl, rfl⟩ := hx
      simp [GlContext.makeCurrent, hm]
  | glxSwt g =>
    obtain ⟨x, hx, rfl⟩ := GlContext.wrap_eq_some _ h
    refine Or.inr (Or.inr ⟨rfl, ?_⟩)
    simp only [GlSwtCanvasContext.lock] at hx
    cases hm : GlxSwtCanvasContext.makeCurrent g true n with
    | none => simp [hm] at hx
    | some q =>
      simp only [hm, Option.some.injEq, Prod.mk.injEq] at hx
      obtain ⟨rfl, rfl, rfl⟩ := hx
      simp [GlContext.makeCurrent, hm]

theorem GlContext.unlock_cases {c c1 : GlContext} {n : Natives} {r : Bool} {cs : List Call}
    (h : c.unlock n = some (r, c1, cs)) :
    (c.isAwt = true ∧ r = true ∧ ∃ y cs1 ds dsi, c.makeCurrent false n = some (y, cs1) ∧
      y.ds = .live ds ∧ y.dsi = .live dsi ∧
      c1 = y.withSurface (.freed ds) (.freed dsi) ∧
      cs = cs1 ++ [.FreeDrawingSurfaceInfo ds dsi, .Unlock ds, .FreeDrawingSurface ds]) ∨
    (c.isAwt = false ∧ r = true ∧ c.makeCurrent false n = some (c1, cs)) := by
  cases c with
  | wglAwt w =>
    obtain ⟨x, hx, rfl⟩ := GlContext.wrap_eq_some _ h
    obtain ⟨rfl, y, cs1, ds, dsi, h1, h2, h3, rfl, rfl⟩ :=
      GlAwtCanvasContext.unlock_inv _ _ _ _ _ hx
    refine Or.inl ⟨rfl, rfl, .wglAwt y, cs1, ds, dsi, ?_, h2, h3, ?_, rfl⟩
    · simp [GlContext.makeCurrent, h1]
    · simp [GlContext.withSurface]
  | glxAwt g =>
    obtain ⟨x, hx, rfl⟩ := GlContext.wrap_eq_some _ h
    obtain ⟨rfl, y, cs1, ds, dsi, h1, h2, h3, rfl, rfl⟩ :=
      GlAwtCanvasContext.unlock_inv _ _ _ _ _ hx
    refine Or.inl ⟨rfl, rfl, .glxAwt y, cs1, ds, dsi, ?_, h2, h3, ?_, rfl⟩
    · simp [GlContext.makeCurrent, h1]
    · simp [GlContext.withSurface]
  | wglSwt w =>
    obtain ⟨x, hx, rfl⟩ := GlContext.wrap_eq_some _ h
    refine Or.inr ⟨rfl, ?_⟩
    simp only [GlSwtCanvasContext.unlock] at hx
    cases hm : WglSwtCanvasContext.makeCurrent w false n with
    | none => simp [hm] at hx
    | some q =>
      simp only [hm, Option.some.injEq, Prod.mk.injEq] at hx
      obtain ⟨rfl, rfl, rfl⟩ := hx
      simp [GlContext.makeCurrent, hm]
  | glxSwt g =>
    obtain ⟨x, hx, rfl⟩ := GlContext.wrap_eq_some _ h
    refine Or.inr ⟨rfl, ?_⟩
    simp only [GlSwtCanvasContext.unlock] at hx
    cases hm : GlxSwtCanvasContext.makeCurrent g false n with
    | none => simp [hm] at hx
    | some q =>
      simp only [hm, Option.some.injEq, Prod.mk.injEq] at hx
      obtain ⟨rfl, rfl, rfl⟩ := hx
      simp [GlContext.makeCurrent, hm]

theorem GlContext.handle_withSurface (c : GlContext) (p : Ptr Handle)
    (q : Ptr JAWT_DrawingSurfaceInfo) : (c.withSurface p q).handle = c.handle := by
  cases c <;> rfl

theorem GlContext.makeCurrent_lazy {c c1 : GlContext} {flag : Bool} {n : Natives}
    {cs : List Call} (h : c.makeCurrent flag n = some (c1, cs)) :
    lazyCreate c.handle (creations cs) = some c1.handle := by
  cases c with
  | wglAwt w =>
    simp only [GlContext.makeCurrent, Option.map_eq_some', Prod.mk.injEq] at h
    obtain ⟨q, hq, rfl, rfl⟩ := h
    unfold WglAwtCanvasContext.makeCurrent at hq
    split at hq
    · simp only [Option.some.injEq] at hq
      subst hq
      by_cases h0 : w._hglrc = 0 <;> cases flag <;>
        simp [GlContext.handle, creations, Call.created, lazyCreate, h0]
    · simp at hq
  | glxAwt g =>
    simp only [GlContext.makeCurrent, Option.map_eq_some', Prod.mk.injEq] at h
    obtain ⟨q, hq, rfl, rfl⟩ := h
    unfold GlxAwtCanvasContext.makeCurrent at hq
    split at hq
    · simp only [Option.some.injEq] at hq
      subst hq
      by_cases h0 : g._context = 0 <;> cases flag <;>
        simp [GlContext.handle, creations, Call.created, lazyCreate, h0]
    · simp at hq
  | wglSwt w =>
    simp only [GlContext.makeCurrent, Option.map_eq_some', Prod.mk.injEq] at h
    obtain ⟨q, hq, rfl, rfl⟩ := h
    unfold WglSwtCanvasContext.makeCurrent at hq
    simp only [Option.some.injEq] at hq
    subst hq
    by_cases h0 : w._hglrc = 0 <;> cases flag <;>
      simp [GlContext.handle, creations, Call.created, lazyCreate, h0]
  | glxSwt g =>
    simp only [GlContext.makeCurrent, Option.map_eq_some', Prod.mk.injEq] at h
    obtain ⟨q, hq, rfl, rfl⟩ := h
    unfold GlxSwtCanvasContext.makeCurrent at hq
    simp only [Option.some.injEq] at hq
    subst hq
    by_cases h0 : g._context = 0 <;> cases flag <;>
      simp [GlContext.handle, creations, Call.created, lazyCreate, h0]

theorem GlContext.swapBuffers_eq (c : GlContext) (n : Natives) :
    ∃ e, c.swapBuffers n = some (true, c, [e]) ∧ e.created = none ∧
      e.isMakeCurrent = false := by
  cases c <;>
    exact ⟨_, rfl, rfl, rfl⟩

theorem GlContext.step_lazy {c c1 : GlContext} {op : Op} {n : Natives} {r : Bool}
    {cs : List Call} (h : c.step op n = some (r, c1, cs)) :
    lazyCreate c.handle (creations cs) = some c1.handle := by
  cases op with
  | lock =>
    rcases GlContext.lock_cases h with ⟨-, -, ⟨p, q, rfl⟩, hn, -⟩ |
      ⟨-, -, canvas, ds, dsi, cs1, -, -, -, -, hm, rfl⟩ | ⟨-, -, hm⟩
    · rw [creations_of_not_native hn, GlContext.handle_withSurface]
      rfl
    · have := GlContext.makeCurrent_lazy hm
      rw [GlContext.handle_withSurface] at this
      rw [creations_append]
      simpa [creations, Call.created] using this
    · exact GlContext.makeCurrent_lazy hm
  | unlock =>
    rcases GlContext.unlock_cases h with ⟨-, -, y, cs1, ds, dsi, hm, -, -, rfl, rfl⟩ |
      ⟨-, -, hm⟩
    · have := GlContext.makeCurrent_lazy hm
      rw [creations_append, GlContext.handle_withSurface]
      simpa [creations, Call.created] using this
    · exact GlContext.makeCurrent_lazy hm
  | swapBuffers =>
    obtain ⟨e, he, hc, -⟩ := GlContext.swapBuffers_eq c n
    simp only [GlContext.step, he, Option.some.injEq, Prod.mk.injEq] at h
    obtain ⟨-, rfl, rfl⟩ := h
    simp [creations, hc, lazyCreate]

theorem GlContext.run_lazy {c c1 : GlContext} {ops : List (Op × Natives)}
    {hist : List (Op × Bool)} {cs : List Call}
    (h : c.run ops = some (c1, hist, cs)) :
    lazyCreate c.handle (creations cs) = some c1.handle := by
  induction ops generalizing c hist cs with
  | nil =>
    simp only [GlContext.run, Option.some.injEq, Prod.mk.injEq] at h
    obtain ⟨rfl, -, rfl⟩ := h
    rfl
  | cons o rest ih =>
    obtain ⟨op, n⟩ := o
    simp only [GlContext.run] at h
    cases hs : c.step op n with
    | none => simp [hs] at h
    | some r =>
      simp only [hs] at h
      cases hr : GlContext.run r.2.1 rest with
      | none => simp [hr] at h
      | some q =>
        simp only [hr, Option.some.injEq, Prod.mk.injEq] at h
        obtain ⟨rfl, -, rfl⟩ := h
        have h1 : c.step op n = some (r.1, r.2.1, r.2.2) := hs
        rw [creations_append, lazyCreate_append, GlContext.step_lazy h1]
        exact ih hr

theorem GlContext.makeCurrent_creates {c c1 : GlContext} {flag : Bool} {n : Natives}
    {cs : List Call} (h : c.makeCurrent flag n = some (c1, cs)) (h0 : c.handle = 0) :
    (creations cs).length = 1 := by
  cases c with
  | wglAwt w =>
    simp only [GlContext.makeCurrent, Option.map_eq_some', Prod.mk.injEq] at h
    obtain ⟨q, hq, rfl, rfl⟩ := h
    simp only [GlContext.handle] at h0
    unfold WglAwtCanvasContext.makeCurrent at hq
    split at hq
    · simp only [Option.some.injEq] at hq
      subst hq
      cases flag <;> simp [creations, Call.created, h0]
    · simp at hq
  | glxAwt g =>
    simp only [GlContext.makeCurrent, Option.map_eq_some', Prod.mk.injEq] at h
    obtain ⟨q, hq, rfl, rfl⟩ := h
    simp only [GlContext.handle] at h0
    unfold GlxAwtCanvasContext.makeCurrent at hq
    split at hq
    · simp only [Option.some.injEq] at hq
      subst hq
      cases flag <;> simp [creations, Call.created, h0]
    · simp at hq
  | wglSwt w =>
    simp only [GlContext.makeCurrent, Option.map_eq_some', Prod.mk.injEq] at h
    obtain ⟨q, hq, rfl, rfl⟩ := h
    simp only [GlContext.handle] at h0
    unfold WglSwtCanvasContext.makeCurrent at hq
    simp only [Option.some.injEq] at hq
    subst hq
    cases flag <;> simp [creations, Call.created, h0]
  | glxSwt g =>
    simp only [GlContext.makeCurrent, Option.map_eq_some', Prod.mk.injEq] at h
    obtain ⟨q, hq, rfl, rfl⟩ := h
    simp only [GlContext.handle] at h0
    unfold GlxSwtCanvasContext.makeCurrent at hq
    simp only [Option.some.injEq] at hq
    subst hq
    cases flag <;> simp [creations, Call.created, h0]

theorem GlContext.step_creates {c c1 : GlContext} {op : Op} {n : Natives} {r : Bool}
    {cs : List Call} (h : c.step op n = some (r, c1, cs)) :
    (creations cs).length = if c.handle = 0 then makeCurrentSteps [(op, r)] else 0 := by
  by_cases h0 : c.handle = 0
  · rw [if_pos h0]
    cases op with
    | lock =>
      rcases GlContext.lock_cases h with ⟨-, rfl, -, hn, -⟩ |
        ⟨-, rfl, canvas, ds, dsi, cs1, -, -, -, -, hm, rfl⟩ | ⟨-, rfl, hm⟩
      · rw [creations_of_not_native hn]
        rfl
      · have := GlContext.makeCurrent_creates hm
          (by rw [GlContext.handle_withSurface]; exact h0)
        rw [creations_append]
        simpa [creations, Call.created, makeCurrentSteps] using this
      · simpa [makeCurrentSteps] using GlContext.makeCurrent_creates hm h0
    | unlock =>
      rcases GlContext.unlock_cases h with ⟨-, -, y, cs1, ds, dsi, hm, -, -, -, rfl⟩ |
        ⟨-, -, hm⟩
      · have := GlContext.makeCurrent_creates hm h0
        rw [creations_append]
        simpa [creations, Call.created, makeCurrentSteps] using this
      · simpa [makeCurrentSteps] using GlContext.makeCurrent_creates hm h0
    | swapBuffers =>
      obtain ⟨e, he, hc, -⟩ := GlContext.swapBuffers_eq c n
      simp only [GlContext.step, he, Option.some.injEq, Prod.mk.injEq] at h
      obtain ⟨rfl, -, rfl⟩ := h
      simp [creations, hc, makeCurrentSteps]
  · rw [if_neg h0]
    have := (lazyCreate_of_ne_zero h0 (GlContext.step_lazy h)).1
    simp [this]

theorem GlContext.run_creates {c c1 : GlContext} {ops : List (Op × Natives)}
    {hist : List (Op × Bool)} {cs : List Call}
    (h : c.run ops = some (c1, hist, cs)) :
    (creations cs).length ≤ makeCurrentSteps hist ∧
      (c1.handle = 0 → (creations cs).length = makeCurrentSteps hist) := by
  induction ops generalizing c hist cs with
  | nil =>
    simp only [GlContext.run, Option.some.injEq, Prod.mk.injEq] at h
    obtain ⟨-, rfl, rfl⟩ := h
    simp [creations, makeCurrentSteps]
  | cons o rest ih =>
    obtain ⟨op, n⟩ := o
    simp only [GlContext.run] at h
    cases hs : c.step op n with
    | none => simp [hs] at h
    | some r =>
      obtain ⟨rr, rc, rcs⟩ := r
      simp only [hs] at h
      cases hr : GlContext.run rc rest with
      | none => simp [hr] at h
      | some q =>
        obtain ⟨qc, qh, qcs⟩ := q
        simp only [hr, Option.some.injEq, Prod.mk.injEq] at h
        obtain ⟨rfl, rfl, rfl⟩ := h
        have hstep := GlContext.step_creates hs
        obtain ⟨ile, ieq⟩ := ih hr
        have hcons : makeCurrentSteps ((op, rr) :: qh)
            = makeCurrentSteps [(op, rr)] + makeCurrentSteps qh := by
          simp only [makeCurrentSteps, List.countP_cons, List.countP_nil]
          omega
        rw [creations_append, List.length_append, hcons]
        constructor
        · by_cases h0 : c.handle = 0
          · rw [if_pos h0] at hstep
            omega
          · rw [if_neg h0] at hstep
            omega
        · intro hz
          have hmid : rc.handle = 0 := by
            by_contra hne
            have := (lazyCreate_of_ne_zero hne (GlContext.run_lazy hr)).2
            exact hne (this ▸ hz)
          have hc0 : c.handle = 0 := by
            by_contra hne
            have := (lazyCreate_of_ne_zero hne (GlContext.step_lazy hs)).2
            exact hne (this ▸ hmid)
          rw [if_pos hc0] at hstep
          have := ieq hz
          omega

/-- C2 as stated fails: on a new Windows SWT context whose native creation returns a null
handle, two lock/unlock cycles all return true and the creation routine is invoked four
times, not at most once. -/
theorem creation_at_most_once_counterexample :
    (sampleWglSwt.run sampleCyclesNoContext).map
      (fun r => (r.2.1, (creations r.2.2).length, decide ((creations r.2.2).length ≤ 1)))
      = some ([(.lock, true), (.unlock, true), (.lock, true), (.unlock, true)], 4, false) := by
  decide

/-- C2 amended: over any sequence of operations on one context, with any native outcomes,
every invocation of the native creation routine except the last one returned a null
handle; so the routine is invoked at most once more than the number of times it
failed, and at most once when it does not fail. It is invoked at most once per
operation that runs makeCurrent (a lock that returns true, an unlock), and as long as
the cached handle is still null it was invoked exactly once in each of them: a null
result is retried by the next make-current step, in lock and in unlock alike. -/
theorem creation_only_while_null (c c1 : GlContext) (ops : List (Op × Natives))
    (hist : List (Op × Bool)) (cs : List Call)
    (h : c.run ops = some (c1, hist, cs)) :
    (∀ x ∈ (creations cs).dropLast, x = 0) ∧
      (creations cs).length ≤ (creations cs).count 0 + 1 ∧
      ((∀ x ∈ creations cs, x ≠ 0) → (creations cs).length ≤ 1) ∧
      (creations cs).length ≤ makeCurrentSteps hist ∧
      (c1.handle = 0 → (creations cs).length = makeCurrentSteps hist) := by
  have hl := GlContext.run_lazy h
  refine ⟨lazyCreate_dropLast hl, lazyCreate_length hl, fun hne => ?_,
    (GlContext.run_creates h).1, (GlContext.run_creates h).2⟩
  have h0 : (creations cs).count 0 = 0 := by
    rw [List.count_eq_zero]
    intro hmem
    exact hne 0 hmem rfl
  have := lazyCreate_length hl
  omega

/-- Witness for C2 amended, on a new Windows AWT context. In two cycles whose first
creation fails and second succeeds, no third creation is made; in two cycles whose
creations all fail, each of the four make-current steps invokes the routine. -/
theorem creation_only_while_null_witness :
    (∃ r, sampleWglAwt.run sampleCycles = some r ∧
      creations r.2.2 = [0, 31] ∧
      (∀ x ∈ (creations r.2.2).dropLast, x = 0) ∧
      (creations r.2.2).length ≤ (creations r.2.2).count 0 + 1 ∧
      ((∀ x ∈ creations r.2.2, x ≠ 0) → (creations r.2.2).length ≤ 1) ∧
      (creations r.2.2).length ≤ makeCurrentSteps r.2.1 ∧
      (r.1.handle = 0 → (creations r.2.2).length = makeCurrentSteps r.2.1)) ∧
    (∃ r, sampleWglAwt.run sampleCyclesNoContext = some r ∧
      r.1.handle = 0 ∧ creations r.2.2 = [0, 0, 0, 0] ∧ makeCurrentSteps r.2.1 = 4 ∧
      (∀ x ∈ (creations r.2.2).dropLast, x = 0) ∧
      (creations r.2.2).length ≤ (creations r.2.2).count 0 + 1 ∧
      ((∀ x ∈ creations r.2.2, x ≠ 0) → (creations r.2.2).length ≤ 1) ∧
      (creations r.2.2).length ≤ makeCurrentSteps r.2.1 ∧
      (r.1.handle = 0 → (creations r.2.2).length = makeCurrentSteps r.2.1)) := by
  have hs : (sampleWglAwt.run sampleCycles).isSome = true := by decide
  have ht : (sampleWglAwt.run sampleCyclesNoContext).isSome = true := by decide
  exact ⟨⟨(sampleWglAwt.run sampleCycles).get hs, (Option.some_get hs).symm, rfl,
    creation_only_while_null sampleWglAwt ((sampleWglAwt.run sampleCycles).get hs).1
      sampleCycles ((sampleWglAwt.run sampleCycles).get hs).2.1
      ((sampleWglAwt.run sampleCycles).get hs).2.2 (Option.some_get hs).symm⟩,
    ⟨(sampleWglAwt.run sampleCyclesNoContext).get ht, (Option.some_get ht).symm, rfl, rfl,
      rfl,
      creation_only_while_null sampleWglAwt
        ((sampleWglAwt.run sampleCyclesNoContext).get ht).1 sampleCyclesNoContext
        ((sampleWglAwt.run sampleCyclesNoContext).get ht).2.1
        ((sampleWglAwt.run sampleCyclesNoContext).get ht).2.2 (Option.some_get ht).symm⟩⟩

/-- C8: from any state in which the cached native rendering-context handle is non-null,
after any sequence of lock, unlock and swapBuffers calls with any native outcomes the
handle has the same value, and no native creation call was issued. -/
theorem handle_immutable_once_set (c c1 : GlContext) (ops : List (Op × Natives))
    (hist : List (Op × Bool)) (cs : List Call) (hc : c.handle ≠ 0)
    (h : c.run ops = some (c1, hist, cs)) :
    c1.handle = c.handle ∧ creations cs = [] := by
  have := lazyCreate_of_ne_zero hc (GlContext.run_lazy h)
  exact ⟨this.2, this.1⟩

/-- Witness for C8: an X11 SWT context holding handle 51, through a lock that would
create handle 77 if it created one, a swap and an unlock. -/
theorem handle_immutable_once_set_witness :
    ∃ r, sampleGlxSwt.handle ≠ 0 ∧ sampleGlxSwt.run sampleUse = some r ∧
      r.1.handle = sampleGlxSwt.handle ∧ creations r.2.2 = [] := by
  have hs : (sampleGlxSwt.run sampleUse).isSome = true := by decide
  exact ⟨(sampleGlxSwt.run sampleUse).get hs, by decide, (Option.some_get hs).symm,
    handle_immutable_once_set sampleGlxSwt ((sampleGlxSwt.run sampleUse).get hs).1
      sampleUse ((sampleGlxSwt.run sampleUse).get hs).2.1
      ((sampleGlxSwt.run sampleUse).get hs).2.2 (by decide) (Option.some_get hs).symm⟩

/-! ### What a call of `makeCurrent` consists of -/

theorem GlContext.makeCurrent_facts {c c1 : GlContext} {flag : Bool} {n : Natives}
    {cs : List Call} (h : c.makeCurrent flag n = some (c1, cs)) :
    (∀ e ∈ cs, e.isGlNative = true) ∧
    (flag = false → (lastMakeCurrent cs).map Call.isUnbind = some true) ∧
    c1.ds = c.ds ∧ c1.dsi = c.dsi ∧ c1.isAwt = c.isAwt ∧
    (∀ f2 n2, (c1.makeCurrent f2 n2).isSome = true) := by
  cases c with
  | wglAwt w =>
    simp only [GlContext.makeCurrent, Option.map_eq_some', Prod.mk.injEq] at h
    obtain ⟨q, hq, rfl, rfl⟩ := h
    unfold WglAwtCanvasContext.makeCurrent at hq
    split at hq
    · rename_i x hx
      simp only [Option.some.injEq] at hq
      subst hq
      refine ⟨?_, ?_, rfl, rfl, rfl, ?_⟩
      · by_cases h0 : w._hglrc = 0 <;> cases flag <;> simp [Call.isGlNative, h0]
      · rintro rfl
        by_cases h0 : w._hglrc = 0 <;>
          simp [lastMakeCurrent, Call.isMakeCurrent, Call.isUnbind, h0]
      · intro f2 n2
        simp [GlContext.makeCurrent, WglAwtCanvasContext.makeCurrent, hx]
    · simp at hq
  | glxAwt g =>
    simp only [GlContext.makeCurrent, Option.map_eq_some', Prod.mk.injEq] at h
    obtain ⟨q, hq, rfl, rfl⟩ := h
    unfold GlxAwtCanvasContext.makeCurrent at hq
    split at hq
    · rename_i x hx
      simp only [Option.some.injEq] at hq
      subst hq
      refine ⟨?_, ?_, rfl, rfl, rfl, ?_⟩
      · by_cases h0 : g._context = 0 <;> cases flag <;> simp [Call.isGlNative, h0]
      · rintro rfl
        by_cases h0 : g._context = 0 <;>
          simp [lastMakeCurrent, Call.isMakeCurrent, Call.isUnbind, h0]
      · intro f2 n2
        simp [GlContext.makeCurrent, GlxAwtCanvasContext.makeCurrent, hx]
    · simp at hq
  | wglSwt w =>
    simp only [GlContext.makeCurrent, Option.map_eq_some', Prod.mk.injEq] at h
    obtain ⟨q, hq, rfl, rfl⟩ := h
    unfold WglSwtCanvasContext.makeCurrent at hq
    simp only [Option.some.injEq] at hq
    subst hq
    refine ⟨?_, ?_, rfl, rfl, rfl, ?_⟩
    · by_cases h0 : w._hglrc = 0 <;> cases flag <;> simp [Call.isGlNative, h0]
    · rintro rfl
      by_cases h0 : w._hglrc = 0 <;>
        simp [lastMakeCurrent, Call.isMakeCurrent, Call.isUnbind, h0]
    · intro f2 n2
      simp [GlContext.makeCurrent, WglSwtCanvasContext.makeCurrent]
  | glxSwt g =>
    simp only [GlContext.makeCurrent, Option.map_eq_some', Prod.mk.injEq] at h
    obtain ⟨q, hq, rfl, rfl⟩ := h
    unfold GlxSwtCanvasContext.makeCurrent at hq
    simp only [Option.some.injEq] at hq
    subst hq
    refine ⟨?_, ?_, rfl, rfl, rfl, ?_⟩
    · by_cases h0 : g._context = 0 <;> cases flag <;> simp [Call.isGlNative, h0]
    · rintro rfl
      by_cases h0 : g._context = 0 <;>
        simp [lastMakeCurrent, Call.isMakeCurrent, Call.isUnbind, h0]
    · intro f2 n2
      simp [GlContext.makeCurrent, GlxSwtCanvasContext.makeCurrent]

/-! ### Order of binding and synchronisation on X Windows -/

/-- The X11 SWT context activates by binding and then waiting for the window system, in
every state and whatever the natives return. -/
theorem glxSwt_activate_binds_then_waits (c : GlxSwtCanvasContext)
    (n : Natives) :
    ∃ c1 creation, c.makeCurrent true n = some (c1, creation ++
        [.glXMakeCurrent (some c._xdisplay) (some c._xdrawable) c1._context, .glXWaitX]) ∧
      ∀ e ∈ creation, e.isMakeCurrent = false := by
  by_cases h0 : c._context = 0
  · exact ⟨_, _, by simp only [GlxSwtCanvasContext.makeCurrent, h0]; rfl,
      by simp [Call.isMakeCurrent]⟩
  · refine ⟨c, [], ?_, by simp⟩
    simp [GlxSwtCanvasContext.makeCurrent, h0]

/-- The X11 SWT context deactivates by waiting for the graphics pipeline and only then
unbinding, in every state and whatever the natives return. -/
theorem glxSwt_deactivate_waits_then_unbinds (c : GlxSwtCanvasContext)
    (n : Natives) :
    ∃ c1 cs, c.makeCurrent false n = some (c1, cs) ∧ waitsThenUnbinds cs = true := by
  by_cases h0 : c._context = 0
  · exact ⟨_, _, rfl, by simp [h0, waitsThenUnbinds, beforeWaitGL, Call.isWaitGL,
      Call.isMakeCurrent]⟩
  · exact ⟨_, _, rfl, by simp [h0, waitsThenUnbinds, beforeWaitGL, Call.isWaitGL,
      Call.isMakeCurrent]⟩

/-- The X11 AWT context, in every state in which `makeCurrent` is defined, deactivates by
a make-current call with a null context, then `glXWaitGL`, then the unbinding
make-current call: it never waits before the first unbinding. -/
theorem glxAwt_deactivate_unbinds_first (c c1 : GlxAwtCanvasContext)
    (n : Natives) (cs : List Call) (h : c.makeCurrent false n = some (c1, cs)) :
    ∃ creation display drawable, cs = creation ++
        [.glXMakeCurrent display drawable 0, .glXWaitGL,
         .glXMakeCurrent display (some 0) 0] ∧
      waitsThenUnbinds cs = false := by
  unfold GlxAwtCanvasContext.makeCurrent at h
  split at h
  · rename_i x hx
    simp only [Option.some.injEq, Prod.mk.injEq] at h
    obtain ⟨-, rfl⟩ := h
    by_cases h0 : c._context = 0
    · refine ⟨[.DefaultScreen (some x.display) n.DefaultScreen,
          .glXChooseVisual (some x.display) n.DefaultScreen config n.glXChooseVisual,
          .glXCreateContext (some x.display) n.glXChooseVisual 0 true n.glXCreateContext],
        some x.display, some x.drawable, ?_, ?_⟩ <;>
        simp [h0, waitsThenUnbinds, beforeWaitGL, Call.isWaitGL, Call.isMakeCurrent]
    · refine ⟨[], some x.display, some x.drawable, ?_, ?_⟩ <;>
        simp [h0, waitsThenUnbinds, beforeWaitGL, Call.isWaitGL, Call.isMakeCurrent]
  · simp at h

/-- C3 on the code: unlock of an X11 AWT context right after its first lock. The
deactivation issues `glXMakeCurrent(display,drawable,None)` before `glXWaitGL`. -/
theorem glxAwt_unlock_unbinds_before_waitGL :
    ((sampleGlxAwt.lock nativesOkX11).bind fun r =>
        (r.2.1.unlock nativesOkX11).map fun u => (r.1, u.1, u.2.2, waitsThenUnbinds u.2.2))
      = some (true, true,
          [.glXMakeCurrent (some 24) (some 23) 0, .glXWaitGL,
           .glXMakeCurrent (some 24) (some 0) 0,
           .FreeDrawingSurfaceInfo 11 ⟨.x11 ⟨23, 24⟩⟩, .Unlock 11, .FreeDrawingSurface 11],
          false) := by
  decide

/-- The X11 AWT context activates by binding (twice) and then waiting for the window
system, in every state in which `makeCurrent` is defined. -/
theorem glxAwt_activate_binds_then_waits (c c1 : GlxAwtCanvasContext)
    (n : Natives) (cs : List Call) (h : c.makeCurrent true n = some (c1, cs)) :
    ∃ creation display drawable, cs = creation ++
        [.glXMakeCurrent display drawable c1._context,
         .glXMakeCurrent display drawable c1._context, .glXWaitX] ∧
      ∀ e ∈ creation, e.isMakeCurrent = false := by
  unfold GlxAwtCanvasContext.makeCurrent at h
  split at h
  · rename_i x hx
    simp only [Option.some.injEq, Prod.mk.injEq] at h
    obtain ⟨rfl, rfl⟩ := h
    by_cases h0 : c._context = 0
    · refine ⟨[.DefaultScreen (some x.display) n.DefaultScreen,
          .glXChooseVisual (some x.display) n.DefaultScreen config n.glXChooseVisual,
          .glXCreateContext (some x.display) n.glXChooseVisual 0 true n.glXCreateContext],
        some x.display, some x.drawable, ?_, ?_⟩ <;>
        simp [h0, Call.isMakeCurrent]
    · refine ⟨[], some x.display, some x.drawable, ?_, ?_⟩ <;>
        simp [h0, Call.isMakeCurrent]
  · simp at h

/-! ### `swapBuffers` and the reporting of native failures -/

theorem GlContext.run_swap_true {c c1 : GlContext} {ops : List (Op × Natives)}
    {hist : List (Op × Bool)} {cs : List Call}
    (h : c.run ops = some (c1, hist, cs)) :
    ∀ e ∈ hist, e.1 = Op.swapBuffers → e.2 = true := by
  induction ops generalizing c hist cs with
  | nil =>
    simp only [GlContext.run, Option.some.injEq, Prod.mk.injEq] at h
    obtain ⟨-, rfl, -⟩ := h
    simp
  | cons o rest ih =>
    obtain ⟨op, n⟩ := o
    simp only [GlContext.run] at h
    cases hs : c.step op n with
    | none => simp [hs] at h
    | some r =>
      simp only [hs] at h
      cases hr : GlContext.run r.2.1 rest with
      | none => simp [hr] at h
      | some q =>
        simp only [hr, Option.some.injEq, Prod.mk.injEq] at h
        obtain ⟨rfl, rfl, -⟩ := h
        intro e he hop
        rw [List.mem_cons] at he
        rcases he with rfl | he
        · simp only at hop
          subst hop
          obtain ⟨e, he, -, -⟩ := GlContext.swapBuffers_eq c n
          simp only [GlContext.step, he, Option.some.injEq] at hs
          rw [← hs]
        · exact ih hr e he hop

/-- C4 as stated fails: on a new Windows SWT context, never locked, swapBuffers returns
true although the specification's protocol state is Inactive; it also returns true
after a lock/unlock cycle. -/
theorem swap_outside_active_counterexample :
    (sampleWglSwt.run [(.swapBuffers, nativesOk)]).map (fun r => r.2.1)
        = some [(.swapBuffers, true)] ∧
      specActivation [] = .Inactive ∧
      (sampleWglSwt.run [(.lock, nativesOk), (.unlock, nativesOk),
          (.swapBuffers, nativesOk)]).map (fun r => r.2.1)
        = some [(.lock, true), (.unlock, true), (.swapBuffers, true)] ∧
      specActivation [(.lock, true), (.unlock, true)] = .Inactive := by
  decide

/-- C4 amended: for every sequence of lock, unlock and swapBuffers calls on a context,
every swapBuffers call of the sequence returned true, and a further swapBuffers call
returns true and leaves the object unchanged, whether or not the context is active. -/
theorem swap_always_succeeds (c c1 : GlContext) (ops : List (Op × Natives))
    (hist : List (Op × Bool)) (cs : List Call) (n : Natives)
    (h : c.run ops = some (c1, hist, cs)) :
    (∀ e ∈ hist, e.1 = Op.swapBuffers → e.2 = true) ∧
      ∃ e, c1.step .swapBuffers n = some (true, c1, [e]) := by
  refine ⟨GlContext.run_swap_true h, ?_⟩
  obtain ⟨e, he, -, -⟩ := GlContext.swapBuffers_eq c1 n
  exact ⟨e, he⟩

/-- Witness for C4 amended: a failed lock on a new X11 AWT context, a swap, and one
more swap afterwards. -/
theorem swap_always_succeeds_witness :
    ∃ r, sampleGlxAwt.run [(.lock, nativesNoInfo), (.swapBuffers, nativesOk)] = some r ∧
      r.2.1 = [(.lock, false), (.swapBuffers, true)] ∧
      (∀ e ∈ r.2.1, e.1 = Op.swapBuffers → e.2 = true) ∧
      ∃ e, r.1.step .swapBuffers nativesSwapFails = some (true, r.1, [e]) := by
  have hs : (sampleGlxAwt.run
      [(.lock, nativesNoInfo), (.swapBuffers, nativesOk)]).isSome = true := by decide
  exact ⟨Option.get _ hs, (Option.some_get hs).symm, rfl,
    swap_always_succeeds sampleGlxAwt (Option.get _ hs).1 _ (Option.get _ hs).2.1
      (Option.get _ hs).2.2 nativesSwapFails (Option.some_get hs).symm⟩

/-- C5 as stated fails: on a new Windows SWT context swapBuffers returns true when the
native `SwapBuffers` reports failure, and lock returns true when `wglCreateContext`
returns a null handle (which stays cached as null). -/
theorem native_failure_reported_counterexample :
    (sampleWglSwt.swapBuffers nativesSwapFails).map (fun r => (r.1, r.2.2))
        = some (true, [.SwapBuffers (some 2) false]) ∧
      (sampleWglSwt.lock nativesNoContext).map
          (fun r => (r.1, r.2.1.handle, creations r.2.2))
        = some (true, 0, [0]) := by
  decide

/-- C5 amended: swapBuffers returns true whatever the native swap reports, and lock
returns true exactly when the surface-acquisition steps succeed (always for an SWT
context), also when the native context creation of that lock returned a null handle. -/
theorem native_failure_not_reported (c c1 : GlContext) (n : Natives) (r : Bool)
    (cs : List Call) (h : c.lock n = some (r, c1, cs)) :
    (∃ e, c.swapBuffers n = some (true, c, [e])) ∧
      r = (!c.isAwt || n.acquires) := by
  refine ⟨?_, ?_⟩
  · obtain ⟨e, he, -, -⟩ := GlContext.swapBuffers_eq c n
    exact ⟨e, he⟩
  · rcases GlContext.lock_cases h with ⟨ha, rfl, -, -, hq⟩ |
      ⟨ha, rfl, canvas, ds, dsi, cs1, h1, h2, h3, h4, -, -⟩ | ⟨ha, rfl, -⟩
    · simp [ha, hq]
    · simp [ha, Natives.acquires, h1, h2, h3, h4]
    · simp [ha]

/-- Witness for C5 amended: a new Windows AWT context whose surface is acquired while
`wglCreateContext` returns a null handle. -/
theorem native_failure_not_reported_witness :
    ∃ r, sampleWglAwt.lock nativesNoContext = some r ∧
      creations r.2.2 = [0] ∧
      (∃ e, sampleWglAwt.swapBuffers nativesNoContext = some (true, sampleWglAwt, [e])) ∧
      r.1 = (!sampleWglAwt.isAwt || nativesNoContext.acquires) := by
  have hs : (sampleWglAwt.lock nativesNoContext).isSome = true := by decide
  exact ⟨Option.get _ hs, (Option.some_get hs).symm, rfl,
    native_failure_not_reported sampleWglAwt (Option.get _ hs).2.1 nativesNoContext
      (Option.get _ hs).1 (Option.get _ hs).2.2 (Option.some_get hs).symm⟩

/-! ### Order of surface calls and make-current calls -/

theorem split_after {l1 l2 pre post : List Call} {e : Call} (p : Call → Bool)
    (h : l1 ++ l2 = pre ++ e :: post) (hp : p e = true) (hl : ∀ x ∈ l1, p x = false) :
    ∀ x ∈ l1, x ∈ pre := by
  rcases List.append_eq_append_iff.1 h with ⟨a, rfl, -⟩ | ⟨a, rfl, ha⟩
  · intro x hx
    exact List.mem_append_left _ hx
  · cases a with
    | nil => simp
    | cons y a =>
      simp only [List.cons_append, List.cons.injEq] at ha
      have := hl e (by simp [ha.1])
      simp [hp] at this

theorem split_before {l1 l2 pre post : List Call} {e : Call} (p : Call → Bool)
    (h : l1 ++ l2 = pre ++ e :: post) (hp : p e = true) (hl : ∀ x ∈ l2, p x = false) :
    ∀ x ∈ l2, x ∈ post := by
  rcases List.append_eq_append_iff.1 h with ⟨a, -, rfl⟩ | ⟨a, -, ha⟩
  · have := hl e (by simp)
    simp [hp] at this
  · cases a with
    | nil =>
      simp only [List.nil_append] at ha
      have := hl e (by simp [← ha])
      simp [hp] at this
    | cons y a =>
      simp only [List.cons_append, List.cons.injEq] at ha
      intro x hx
      rw [ha.2]
      exact List.mem_append_right _ hx

/-- C6: in an AWT context the trace of a successful lock is the four acquisition calls
followed by calls to the windowing and OpenGL layer only, so every make-current call
comes after the surface was locked and its info obtained; the trace of unlock is calls
to the windowing and OpenGL layer followed by exactly FreeDrawingSurfaceInfo, Unlock,
FreeDrawingSurface in that order, so every make-current call comes before the three
releases. -/
theorem surface_encloses_make_current (c c1 d d1 : GlContext) (n1 n2 : Natives)
    (r : Bool) (cs1 cs2 : List Call) (hc : c.isAwt = true) (hd : d.isAwt = true)
    (hl : c.lock n1 = some (true, c1, cs1)) (hu : d.unlock n2 = some (r, d1, cs2)) :
    (∃ canvas ds dsi mc,
      cs1 = [.JAWT_GetAWT true, .GetDrawingSurface canvas (some ds), .Lock ds n1.Lock,
             .GetDrawingSurfaceInfo ds (some dsi)] ++ mc ∧
      n1.Lock &&& JAWT_LOCK_ERROR = 0 ∧
      (∀ e ∈ mc, e.isGlNative = true) ∧
      ∀ pre e post, cs1 = pre ++ e :: post → e.isMakeCurrent = true →
        Call.Lock ds n1.Lock ∈ pre ∧ Call.GetDrawingSurfaceInfo ds (some dsi) ∈ pre) ∧
    (∃ ds dsi mc,
      cs2 = mc ++ [.FreeDrawingSurfaceInfo ds dsi, .Unlock ds, .FreeDrawingSurface ds] ∧
      (∀ e ∈ mc, e.isGlNative = true) ∧
      ∀ pre e post, cs2 = pre ++ e :: post → e.isMakeCurrent = true →
        Call.FreeDrawingSurfaceInfo ds dsi ∈ post ∧ Call.Unlock ds ∈ post ∧
        Call.FreeDrawingSurface ds ∈ post) := by
  constructor
  · rcases GlContext.lock_cases hl with ⟨-, hr, -⟩ |
      ⟨-, -, canvas, ds, dsi, mc, -, -, h3, -, hm, rfl⟩ | ⟨ha, -⟩
    · simp at hr
    · refine ⟨canvas, ds, dsi, mc, rfl, h3, (GlContext.makeCurrent_facts hm).1, ?_⟩
      intro pre e post hsplit he
      have := split_after Call.isMakeCurrent hsplit he (by simp [Call.isMakeCurrent])
      exact ⟨this _ (by simp), this _ (by simp)⟩
    · simp [hc] at ha
  · rcases GlContext.unlock_cases hu with
      ⟨-, -, y, mc, ds, dsi, hm, -, -, -, rfl⟩ | ⟨ha, -⟩
    · refine ⟨ds, dsi, mc, rfl, (GlContext.makeCurrent_facts hm).1, ?_⟩
      intro pre e post hsplit he
      have := split_before Call.isMakeCurrent hsplit he (by simp [Call.isMakeCurrent])
      exact ⟨this _ (by simp), this _ (by simp), this _ (by simp)⟩
    · simp [hd] at ha

/-- Witness for C6: the first lock of a new Windows AWT context and the unlock after it. -/
theorem surface_encloses_make_current_witness :
    sampleWglAwt.lock nativesOk = some (true, sampleLockedWglAwt, sampleLockTrace) ∧
    sampleLockedWglAwt.unlock nativesOk
      = some (true, sampleUnlockedWglAwt, sampleUnlockTrace) ∧
    (∃ canvas ds dsi mc,
      sampleLockTrace = [.JAWT_GetAWT true, .GetDrawingSurface canvas (some ds),
             .Lock ds nativesOk.Lock, .GetDrawingSurfaceInfo ds (some dsi)] ++ mc ∧
      nativesOk.Lock &&& JAWT_LOCK_ERROR = 0 ∧
      (∀ e ∈ mc, e.isGlNative = true) ∧
      ∀ pre e post, sampleLockTrace = pre ++ e :: post → e.isMakeCurrent = true →
        Call.Lock ds nativesOk.Lock ∈ pre ∧
        Call.GetDrawingSurfaceInfo ds (some dsi) ∈ pre) ∧
    (∃ ds dsi mc,
      sampleUnlockTrace
        = mc ++ [.FreeDrawingSurfaceInfo ds dsi, .Unlock ds, .FreeDrawingSurface ds] ∧
      (∀ e ∈ mc, e.isGlNative = true) ∧
      ∀ pre e post, sampleUnlockTrace = pre ++ e :: post → e.isMakeCurrent = true →
        Call.FreeDrawingSurfaceInfo ds dsi ∈ post ∧ Call.Unlock ds ∈ post ∧
        Call.FreeDrawingSurface ds ∈ post) :=
  ⟨by decide, by decide,
    surface_encloses_make_current sampleWglAwt sampleLockedWglAwt sampleLockedWglAwt
      sampleUnlockedWglAwt nativesOk nativesOk true sampleLockTrace sampleUnlockTrace
      (by decide) (by decide) (by decide) (by decide)⟩

/-! ### A lock followed by its unlock -/

theorem GlContext.unlock_of_makeCurrent {c y : GlContext} {n : Natives} {cs : List Call}
    (hm : c.makeCurrent false n = some (y, cs)) :
    (c.isAwt = false → c.unlock n = some (true, y, cs)) ∧
    (∀ ds dsi, c.isAwt = true → y.ds = .live ds → y.dsi = .live dsi →
      c.unlock n = some (true, y.withSurface (.freed ds) (.freed dsi),
        cs ++ [.FreeDrawingSurfaceInfo ds dsi, .Unlock ds, .FreeDrawingSurface ds])) := by
  cases c with
  | wglAwt w =>
    simp only [GlContext.makeCurrent, Option.map_eq_some', Prod.mk.injEq] at hm
    obtain ⟨q, hq, rfl, rfl⟩ := hm
    refine ⟨by simp [GlContext.isAwt], ?_⟩
    intro ds dsi _ hds hdsi
    simp only [GlContext.ds, GlContext.dsi] at hds hdsi
    simp [GlContext.unlock, WglAwtCanvasContext.unlock, GlAwtCanvasContext.unlock, hq, hds,
      hdsi, GlContext.wrap, GlContext.withSurface]
  | glxAwt g =>
    simp only [GlContext.makeCurrent, Option.map_eq_some', Prod.mk.injEq] at hm
    obtain ⟨q, hq, rfl, rfl⟩ := hm
    refine ⟨by simp [GlContext.isAwt], ?_⟩
    intro ds dsi _ hds hdsi
    simp only [GlContext.ds, GlContext.dsi] at hds hdsi
    simp [GlContext.unlock, GlxAwtCanvasContext.unlock, GlAwtCanvasContext.unlock, hq, hds,
      hdsi, GlContext.wrap, GlContext.withSurface]
  | wglSwt w =>
    simp only [GlContext.makeCurrent, Option.map_eq_some', Prod.mk.injEq] at hm
    obtain ⟨q, hq, rfl, rfl⟩ := hm
    refine ⟨fun _ => ?_, by simp [GlContext.isAwt]⟩
    simp [GlContext.unlock, GlSwtCanvasContext.unlock, hq, GlContext.wrap]
  | glxSwt g =>
    simp only [GlContext.makeCurrent, Option.map_eq_some', Prod.mk.injEq] at hm
    obtain ⟨q, hq, rfl, rfl⟩ := hm
    refine ⟨fun _ => ?_, by simp [GlContext.isAwt]⟩
    simp [GlContext.unlock, GlSwtCanvasContext.unlock, hq, GlContext.wrap]

theorem GlContext.ds_withSurface_of_isAwt {c : GlContext} (h : c.isAwt = true)
    (p : Ptr Handle) (q : Ptr JAWT_DrawingSurfaceInfo) :
    (c.withSurface p q).ds = p ∧ (c.withSurface p q).dsi = q ∧
      (c.withSurface p q).isAwt = true := by
  cases c <;> simp_all [GlContext.isAwt, GlContext.withSurface, GlContext.ds, GlContext.dsi]

theorem countP_eq_zero_of_native {cs : List Call} (p : Call → Bool)
    (hp : ∀ e, e.isGlNative = true → p e = false) (h : ∀ e ∈ cs, e.isGlNative = true) :
    cs.countP p = 0 := by
  rw [List.countP_eq_zero]
  intro e he
  simp [hp e (h e he)]

theorem GlContext.deref_of_not_isAwt (c : GlContext) (h : c.isAwt = false) :
    c.ds.deref = none ∧ c.dsi.deref = none := by
  cases c <;> simp_all [GlContext.isAwt, GlContext.ds, GlContext.dsi, Ptr.deref]

theorem native_not_surface (e : Call) (h : e.isGlNative = true) :
    e.obtainsSurface = false ∧ e.freesSurface = false ∧ e.takesLock = false ∧
      e.releasesLock = false ∧ e.obtainsInfo = false ∧ e.freesInfo = false := by
  cases e <;> simp [Call.isGlNative] at h <;>
    simp [Call.obtainsSurface, Call.freesSurface, Call.takesLock, Call.releasesLock,
      Call.obtainsInfo, Call.freesInfo]

theorem countP_surface_of_native {cs : List Call} (h : ∀ e ∈ cs, e.isGlNative = true) :
    cs.countP Call.obtainsSurface = 0 ∧ cs.countP Call.freesSurface = 0 ∧
      cs.countP Call.takesLock = 0 ∧ cs.countP Call.releasesLock = 0 ∧
      cs.countP Call.obtainsInfo = 0 ∧ cs.countP Call.freesInfo = 0 := by
  refine ⟨?_, ?_, ?_, ?_, ?_, ?_⟩ <;>
    refine countP_eq_zero_of_native _ (fun e he => ?_) h
  · exact (native_not_surface e he).1
  · exact (native_not_surface e he).2.1
  · exact (native_not_surface e he).2.2.1
  · exact (native_not_surface e he).2.2.2.1
  · exact (native_not_surface e he).2.2.2.2.1
  · exact (native_not_surface e he).2.2.2.2.2

theorem lastMakeCurrent_append_right (a b : List Call)
    (h : (lastMakeCurrent b).map Call.isUnbind = some true) :
    (lastMakeCurrent (a ++ b)).map Call.isUnbind = some true := by
  unfold lastMakeCurrent at h ⊢
  rw [List.filter_append, List.getLast?_append]
  cases hb : (List.filter Call.isMakeCurrent b).getLast? with
  | none => simp [hb] at h
  | some u => simpa [hb] using h

theorem lastMakeCurrent_append_left (a b : List Call)
    (h : ∀ e ∈ b, e.isMakeCurrent = false) :
    lastMakeCurrent (a ++ b) = lastMakeCurrent a := by
  have hb : List.filter Call.isMakeCurrent b = [] := by
    rw [List.filter_eq_nil_iff]
    intro e he
    simp [h e he]
  simp [lastMakeCurrent, hb]

theorem native_step (e : Call) (h : e.isGlNative = true) (a b : List Handle)
    (i : List (Handle × JAWT_DrawingSurfaceInfo)) :
    lockStep a e = a ∧ surfaceStep b e = b ∧ infoStep i e = i := by
  cases e <;> simp [Call.isGlNative] at h <;> exact ⟨rfl, rfl, rfl⟩

theorem locksAfter_native {cs : List Call} (h : ∀ e ∈ cs, e.isGlNative = true)
    (held : List Handle) : locksAfter held cs = held := by
  induction cs generalizing held with
  | nil => rfl
  | cons e cs ih =>
    simp only [locksAfter, List.foldl_cons]
    rw [(native_step e (h e (by simp)) held [] []).1]
    exact ih (fun x hx => h x (List.mem_cons_of_mem _ hx)) held

theorem surfacesAfter_native {cs : List Call} (h : ∀ e ∈ cs, e.isGlNative = true)
    (held : List Handle) : surfacesAfter held cs = held := by
  induction cs generalizing held with
  | nil => rfl
  | cons e cs ih =>
    simp only [surfacesAfter, List.foldl_cons]
    rw [(native_step e (h e (by simp)) [] held []).2.1]
    exact ih (fun x hx => h x (List.mem_cons_of_mem _ hx)) held

theorem infosAfter_native {cs : List Call} (h : ∀ e ∈ cs, e.isGlNative = true)
    (held : List (Handle × JAWT_DrawingSurfaceInfo)) : infosAfter held cs = held := by
  induction cs generalizing held with
  | nil => rfl
  | cons e cs ih =>
    simp only [infosAfter, List.foldl_cons]
    rw [(native_step e (h e (by simp)) [] [] held).2.2]
    exact ih (fun x hx => h x (List.mem_cons_of_mem _ hx)) held

theorem locksAfter_append (held : List Handle) (a b : List Call) :
    locksAfter held (a ++ b) = locksAfter (locksAfter held a) b := by
  simp [locksAfter]

theorem surfacesAfter_append (held : List Handle) (a b : List Call) :
    surfacesAfter held (a ++ b) = surfacesAfter (surfacesAfter held a) b := by
  simp [surfacesAfter]

theorem infosAfter_append (held : List (Handle × JAWT_DrawingSurfaceInfo))
    (a b : List Call) : infosAfter held (a ++ b) = infosAfter (infosAfter held a) b := by
  simp [infosAfter]

/-- C7: a successful lock followed immediately by unlock, in every context variant and
for all native outcomes. The unlock is defined and returns true, and the last
make-current call issued has a null context. For an AWT context the lock trace is
GetDrawingSurface, Lock and GetDrawingSurfaceInfo of one surface and info followed by
windowing and OpenGL calls only, and the unlock trace is such calls followed by
FreeDrawingSurfaceInfo, Unlock and FreeDrawingSurface of that same info and surface; an
SWT context makes windowing and OpenGL calls only. So replaying both traces from any
set of held locks, surfaces and infos gives that set back, each is acquired and released
exactly once (SWT: never), and no live surface pointer remains in the object. -/
theorem lock_then_unlock_releases (c c1 : GlContext) (n1 n2 : Natives) (cs1 : List Call)
    (hl : c.lock n1 = some (true, c1, cs1)) :
    ∃ c2 cs2, c1.unlock n2 = some (true, c2, cs2) ∧
      (lastMakeCurrent (cs1 ++ cs2)).map Call.isUnbind = some true ∧
      (cs1 ++ cs2).countP Call.obtainsSurface = (if c.isAwt then 1 else 0) ∧
      (cs1 ++ cs2).countP Call.freesSurface = (if c.isAwt then 1 else 0) ∧
      (cs1 ++ cs2).countP Call.takesLock = (if c.isAwt then 1 else 0) ∧
      (cs1 ++ cs2).countP Call.releasesLock = (if c.isAwt then 1 else 0) ∧
      (cs1 ++ cs2).countP Call.obtainsInfo = (if c.isAwt then 1 else 0) ∧
      (cs1 ++ cs2).countP Call.freesInfo = (if c.isAwt then 1 else 0) ∧
      (∀ t, locksHeld (t ++ (cs1 ++ cs2)) = locksHeld t ∧
        surfacesHeld (t ++ (cs1 ++ cs2)) = surfacesHeld t ∧
        infosHeld (t ++ (cs1 ++ cs2)) = infosHeld t) ∧
      c2.ds.deref = none ∧ c2.dsi.deref = none ∧
      (∀ held, locksAfter held (cs1 ++ cs2) = held) ∧
      (∀ held, surfacesAfter held (cs1 ++ cs2) = held) ∧
      (∀ held, infosAfter held (cs1 ++ cs2) = held) ∧
      (c.isAwt = true → ∃ canvas ds dsi mc1 mc2,
        cs1 = [.JAWT_GetAWT true, .GetDrawingSurface canvas (some ds), .Lock ds n1.Lock,
               .GetDrawingSurfaceInfo ds (some dsi)] ++ mc1 ∧
        n1.Lock &&& JAWT_LOCK_ERROR = 0 ∧
        cs2 = mc2 ++ [.FreeDrawingSurfaceInfo ds dsi, .Unlock ds, .FreeDrawingSurface ds] ∧
        (∀ e ∈ mc1, e.isGlNative = true) ∧ (∀ e ∈ mc2, e.isGlNative = true)) ∧
      (c.isAwt = false → ∀ e ∈ cs1 ++ cs2, e.isGlNative = true) := by
  have fin : ∀ (c2 : GlContext) (cs2 : List Call) (k : Nat),
      c1.unlock n2 = some (true, c2, cs2) →
      (lastMakeCurrent (cs1 ++ cs2)).map Call.isUnbind = some true →
      (cs1 ++ cs2).countP Call.obtainsSurface = k →
      (cs1 ++ cs2).countP Call.freesSurface = k →
      (cs1 ++ cs2).countP Call.takesLock = k →
      (cs1 ++ cs2).countP Call.releasesLock = k →
      (cs1 ++ cs2).countP Call.obtainsInfo = k →
      (cs1 ++ cs2).countP Call.freesInfo = k →
      k = (if c.isAwt then 1 else 0) →
      c2.ds.deref = none → c2.dsi.deref = none →
      (∀ held, locksAfter held (cs1 ++ cs2) = held) →
      (∀ held, surfacesAfter held (cs1 ++ cs2) = held) →
      (∀ held, infosAfter held (cs1 ++ cs2) = held) →
      (c.isAwt = true → ∃ canvas ds dsi mc1 mc2,
        cs1 = [.JAWT_GetAWT true, .GetDrawingSurface canvas (some ds), .Lock ds n1.Lock,
               .GetDrawingSurfaceInfo ds (some dsi)] ++ mc1 ∧
        n1.Lock &&& JAWT_LOCK_ERROR = 0 ∧
        cs2 = mc2 ++ [.FreeDrawingSurfaceInfo ds dsi, .Unlock ds, .FreeDrawingSurface ds] ∧
        (∀ e ∈ mc1, e.isGlNative = true) ∧ (∀ e ∈ mc2, e.isGlNative = true)) →
      (c.isAwt = false → ∀ e ∈ cs1 ++ cs2, e.isGlNative = true) →
      ∃ c2 cs2, c1.unlock n2 = some (true, c2, cs2) ∧
      (lastMakeCurrent (cs1 ++ cs2)).map Call.isUnbind = some true ∧
      (cs1 ++ cs2).countP Call.obtainsSurface = (if c.isAwt then 1 else 0) ∧
      (cs1 ++ cs2).countP Call.freesSurface = (if c.isAwt then 1 else 0) ∧
      (cs1 ++ cs2).countP Call.takesLock = (if c.isAwt then 1 else 0) ∧
      (cs1 ++ cs2).countP Call.releasesLock = (if c.isAwt then 1 else 0) ∧
      (cs1 ++ cs2).countP Call.obtainsInfo = (if c.isAwt then 1 else 0) ∧
      (cs1 ++ cs2).countP Call.freesInfo = (if c.isAwt then 1 else 0) ∧
      (∀ t, locksHeld (t ++ (cs1 ++ cs2)) = locksHeld t ∧
        surfacesHeld (t ++ (cs1 ++ cs2)) = surfacesHeld t ∧
        infosHeld (t ++ (cs1 ++ cs2)) = infosHeld t) ∧
      c2.ds.deref = none ∧ c2.dsi.deref = none ∧
      (∀ held, locksAfter held (cs1 ++ cs2) = held) ∧
      (∀ held, surfacesAfter held (cs1 ++ cs2) = held) ∧
      (∀ held, infosAfter held (cs1 ++ cs2) = held) ∧
      (c.isAwt = true → ∃ canvas ds dsi mc1 mc2,
        cs1 = [.JAWT_GetAWT true, .GetDrawingSurface canvas (some ds), .Lock ds n1.Lock,
               .GetDrawingSurfaceInfo ds (some dsi)] ++ mc1 ∧
        n1.Lock &&& JAWT_LOCK_ERROR = 0 ∧
        cs2 = mc2 ++ [.FreeDrawingSurfaceInfo ds dsi, .Unlock ds, .FreeDrawingSurface ds] ∧
        (∀ e ∈ mc1, e.isGlNative = true) ∧ (∀ e ∈ mc2, e.isGlNative = true)) ∧
      (c.isAwt = false → ∀ e ∈ cs1 ++ cs2, e.isGlNative = true) := by
    intro c2 cs2 k hu hlast a1 a2 a3 a4 a5 a6 hk hds hdsi b1 b2 b3 b4 b5
    subst hk
    refine ⟨c2, cs2, hu, hlast, a1, a2, a3, a4, a5, a6, ?_, hds, hdsi, b1, b2, b3, b4, b5⟩
    intro t
    simp only [locksHeld, surfacesHeld, infosHeld, List.countP_append _ t (cs1 ++ cs2),
      a1, a2, a3, a4, a5, a6]
    omega
  rcases GlContext.lock_cases hl with ⟨-, hr, -⟩ |
    ⟨ha, -, canvas, ds, dsi, mc1, -, -, h3, -, hm, rfl⟩ | ⟨ha, -, hm⟩
  · simp at hr
  · obtain ⟨hn1, -, hds1, hdsi1, hawt1, hdef⟩ := GlContext.makeCurrent_facts hm
    obtain ⟨wds, wdsi, -⟩ := GlContext.ds_withSurface_of_isAwt ha (.live ds) (.live dsi)
    have ha0 := (GlContext.ds_withSurface_of_isAwt ha (.live ds) (.live dsi)).2.2
    rw [wds] at hds1
    rw [wdsi] at hdsi1
    rw [ha0] at hawt1
    cases hm2 : c1.makeCurrent false n2 with
    | none =>
      have := hdef false n2
      simp [hm2] at this
    | some q =>
      have hm2b : c1.makeCurrent false n2 = some (q.1, q.2) := hm2
      obtain ⟨hn2, hlast, hds2, hdsi2, hawt2, -⟩ := GlContext.makeCurrent_facts hm2b
      have hu := (GlContext.unlock_of_makeCurrent hm2b).2 ds dsi hawt1
        (by rw [hds2, hds1]) (by rw [hdsi2, hdsi1])
      have hy : q.1.isAwt = true := by rw [hawt2, hawt1]
      obtain ⟨e1, e2, -⟩ := GlContext.ds_withSurface_of_isAwt hy (.freed ds) (.freed dsi)
      obtain ⟨y1, y2, y3, y4, y5, y6⟩ := countP_surface_of_native hn1
      obtain ⟨z1, z2, z3, z4, z5, z6⟩ := countP_surface_of_native hn2
      have hlock : Call.takesLock (Call.Lock ds n1.Lock) = true := by
        simp [Call.takesLock, h3]
      refine fin _ _ 1 hu ?_ ?_ ?_ ?_ ?_ ?_ ?_ (by simp [ha]) (by rw [e1]; rfl)
        (by rw [e2]; rfl) ?_ ?_ ?_
        (fun _ => ⟨canvas, ds, dsi, mc1, q.2, rfl, h3, rfl, hn1, hn2⟩)
        (fun hf => by simp [ha] at hf)
      · rw [← List.append_assoc]
        rw [lastMakeCurrent_append_left _ _ (by simp [Call.isMakeCurrent])]
        exact lastMakeCurrent_append_right _ _ (hlast rfl)
      · simp only [List.countP_append, List.countP_cons, List.countP_nil, hlock,
          y1, y2, y3, y4, y5, y6, z1, z2, z3, z4, z5, z6]
        simp [Call.obtainsSurface, Call.freesSurface, Call.takesLock, Call.releasesLock,
          Call.obtainsInfo, Call.freesInfo]
      · simp only [List.countP_append, List.countP_cons, List.countP_nil, hlock,
          y1, y2, y3, y4, y5, y6, z1, z2, z3, z4, z5, z6]
        simp [Call.obtainsSurface, Call.freesSurface, Call.takesLock, Call.releasesLock,
          Call.obtainsInfo, Call.freesInfo]
      · simp only [List.countP_append, List.countP_cons, List.countP_nil, hlock,
          y1, y2, y3, y4, y5, y6, z1, z2, z3, z4, z5, z6]
        simp [Call.obtainsSurface, Call.freesSurface, Call.takesLock, Call.releasesLock,
          Call.obtainsInfo, Call.freesInfo]
      · simp only [List.countP_append, List.countP_cons, List.countP_nil, hlock,
          y1, y2, y3, y4, y5, y6, z1, z2, z3, z4, z5, z6]
        simp [Call.obtainsSurface, Call.freesSurface, Call.takesLock, Call.releasesLock,
          Call.obtainsInfo, Call.freesInfo]
      · simp only [List.countP_append, List.countP_cons, List.countP_nil, hlock,
          y1, y2, y3, y4, y5, y6, z1, z2, z3, z4, z5, z6]
        simp [Call.obtainsSurface, Call.freesSurface, Call.takesLock, Call.releasesLock,
          Call.obtainsInfo, Call.freesInfo]
      · simp only [List.countP_append, List.countP_cons, List.countP_nil, hlock,
          y1, y2, y3, y4, y5, y6, z1, z2, z3, z4, z5, z6]
        simp [Call.obtainsSurface, Call.freesSurface, Call.takesLock, Call.releasesLock,
          Call.obtainsInfo, Call.freesInfo]
      · intro held
        rw [locksAfter_append, locksAfter_append, locksAfter_append,
          locksAfter_native hn1, locksAfter_native hn2]
        simp [locksAfter, lockStep, h3]
      · intro held
        rw [surfacesAfter_append, surfacesAfter_append, surfacesAfter_append,
          surfacesAfter_native hn1, surfacesAfter_native hn2]
        simp [surfacesAfter, surfaceStep]
      · intro held
        rw [infosAfter_append, infosAfter_append, infosAfter_append,
          infosAfter_native hn1, infosAfter_native hn2]
        simp [infosAfter, infoStep]
  · obtain ⟨hn1, -, -, -, hawt1, hdef⟩ := GlContext.makeCurrent_facts hm
    rw [ha] at hawt1
    cases hm2 : c1.makeCurrent false n2 with
    | none =>
      have := hdef false n2
      simp [hm2] at this
    | some q =>
      have hm2b : c1.makeCurrent false n2 = some (q.1, q.2) := hm2
      obtain ⟨hn2, hlast, -, -, hawt2, -⟩ := GlContext.makeCurrent_facts hm2b
      have hu := (GlContext.unlock_of_makeCurrent hm2b).1 hawt1
      have hy : q.1.isAwt = false := by rw [hawt2, hawt1]
      obtain ⟨y1, y2, y3, y4, y5, y6⟩ := countP_surface_of_native hn1
      obtain ⟨z1, z2, z3, z4, z5, z6⟩ := countP_surface_of_native hn2
      have hq := GlContext.deref_of_not_isAwt q.1 hy
      have hall : ∀ e ∈ cs1 ++ q.2, e.isGlNative = true := by
        intro e he
        rcases List.mem_append.1 he with h | h
        · exact hn1 e h
        · exact hn2 e h
      refine fin _ _ 0 hu (lastMakeCurrent_append_right _ _ (hlast rfl)) ?_ ?_ ?_ ?_ ?_ ?_
        (by simp [ha]) hq.1 hq.2 (locksAfter_native hall) (surfacesAfter_native hall)
        (infosAfter_native hall) (fun hf => by simp [ha] at hf) (fun _ => hall)
      all_goals
        simp only [List.countP_append, y1, y2, y3, y4, y5, y6, z1, z2, z3, z4, z5, z6]

/-- Witness for C7: the first lock of a new Windows AWT context, then unlock. -/
theorem lock_then_unlock_releases_witness :
    sampleWglAwt.lock nativesOk = some (true, sampleLockedWglAwt, sampleLockTrace) ∧
    ∃ c2 cs2, sampleLockedWglAwt.unlock nativesNoContext = some (true, c2, cs2) ∧
      (lastMakeCurrent (sampleLockTrace ++ cs2)).map Call.isUnbind = some true ∧
      (sampleLockTrace ++ cs2).countP Call.obtainsSurface = (if sampleWglAwt.isAwt then 1 else 0) ∧
      (sampleLockTrace ++ cs2).countP Call.freesSurface = (if sampleWglAwt.isAwt then 1 else 0) ∧
      (sampleLockTrace ++ cs2).countP Call.takesLock = (if sampleWglAwt.isAwt then 1 else 0) ∧
      (sampleLockTrace ++ cs2).countP Call.releasesLock = (if sampleWglAwt.isAwt then 1 else 0) ∧
      (sampleLockTrace ++ cs2).countP Call.obtainsInfo = (if sampleWglAwt.isAwt then 1 else 0) ∧
      (sampleLockTrace ++ cs2).countP Call.freesInfo = (if sampleWglAwt.isAwt then 1 else 0) ∧
      (∀ t, locksHeld (t ++ (sampleLockTrace ++ cs2)) = locksHeld t ∧
        surfacesHeld (t ++ (sampleLockTrace ++ cs2)) = surfacesHeld t ∧
        infosHeld (t ++ (sampleLockTrace ++ cs2)) = infosHeld t) ∧
      c2.ds.deref = none ∧ c2.dsi.deref = none ∧
      (∀ held, locksAfter held (sampleLockTrace ++ cs2) = held) ∧
      (∀ held, surfacesAfter held (sampleLockTrace ++ cs2) = held) ∧
      (∀ held, infosAfter held (sampleLockTrace ++ cs2) = held) ∧
      (sampleWglAwt.isAwt = true → ∃ canvas ds dsi mc1 mc2,
        sampleLockTrace = [.JAWT_GetAWT true, .GetDrawingSurface canvas (some ds), .Lock ds nativesOk.Lock,
               .GetDrawingSurfaceInfo ds (some dsi)] ++ mc1 ∧
        nativesOk.Lock &&& JAWT_LOCK_ERROR = 0 ∧
        cs2 = mc2 ++ [.FreeDrawingSurfaceInfo ds dsi, .Unlock ds, .FreeDrawingSurface ds] ∧
        (∀ e ∈ mc1, e.isGlNative = true) ∧ (∀ e ∈ mc2, e.isGlNative = true)) ∧
      (sampleWglAwt.isAwt = false → ∀ e ∈ sampleLockTrace ++ cs2, e.isGlNative = true) :=
  ⟨by decide,
    lock_then_unlock_releases sampleWglAwt sampleLockedWglAwt nativesOk nativesNoContext
      sampleLockTrace (by decide)⟩

/-! ### Destruction -/

theorem GlContext.run_swaps (c : GlContext) (ns : List Natives) :
    (c.run (ns.map fun n => (Op.swapBuffers, n))).map (fun r => r.1) = some c := by
  induction ns with
  | nil => rfl
  | cons n ns ih =>
    obtain ⟨e, he, -, -⟩ := GlContext.swapBuffers_eq c n
    simp only [List.map_cons, GlContext.run, GlContext.step, he]
    cases hr : c.run (ns.map fun n => (Op.swapBuffers, n)) with
    | none => simp [hr] at ih
    | some q => simpa [hr] using ih

theorem lazyCreate_getLast {h k : Handle} {l : List Handle}
    (hl : lazyCreate h l = some k) : k = l.getLast?.getD h := by
  induction l generalizing h with
  | nil => simpa [lazyCreate, eq_comm] using hl
  | cons x l ih =>
    by_cases hh : h = 0
    · simp only [lazyCreate, hh, if_true] at hl
      rw [ih hl, List.getLast?_cons]
      rfl
    · simp [lazyCreate, hh] at hl

theorem GlContext.canvas_withSurface (c : GlContext) (p : Ptr Handle)
    (q : Ptr JAWT_DrawingSurfaceInfo) : (c.withSurface p q).canvas = c.canvas := by
  cases c <;> rfl

theorem GlContext.makeCurrent_canvas {c c1 : GlContext} {flag : Bool} {n : Natives}
    {cs : List Call} (h : c.makeCurrent flag n = some (c1, cs)) : c1.canvas = c.canvas := by
  cases c with
  | wglAwt w =>
    simp only [GlContext.makeCurrent, Option.map_eq_some', Prod.mk.injEq] at h
    obtain ⟨q, hq, rfl, rfl⟩ := h
    unfold WglAwtCanvasContext.makeCurrent at hq
    split at hq
    · simp only [Option.some.injEq] at hq
      subst hq
      rfl
    · simp at hq
  | glxAwt g =>
    simp only [GlContext.makeCurrent, Option.map_eq_some', Prod.mk.injEq] at h
    obtain ⟨q, hq, rfl, rfl⟩ := h
    unfold GlxAwtCanvasContext.makeCurrent at hq
    split at hq
    · simp only [Option.some.injEq] at hq
      subst hq
      rfl
    · simp at hq
  | wglSwt w =>
    simp only [GlContext.makeCurrent, Option.map_eq_some', Prod.mk.injEq] at h
    obtain ⟨q, hq, rfl, rfl⟩ := h
    rfl
  | glxSwt g =>
    simp only [GlContext.makeCurrent, Option.map_eq_some', Prod.mk.injEq] at h
    obtain ⟨q, hq, rfl, rfl⟩ := h
    rfl

theorem GlContext.step_canvas {c c1 : GlContext} {op : Op} {n : Natives} {r : Bool}
    {cs : List Call} (h : c.step op n = some (r, c1, cs)) : c1.canvas = c.canvas := by
  cases op with
  | lock =>
    rcases GlContext.lock_cases h with ⟨-, -, ⟨p, q, rfl⟩, -, -⟩ |
      ⟨-, -, canvas, ds, dsi, cs1, -, -, -, -, hm, -⟩ | ⟨-, -, hm⟩
    · exact GlContext.canvas_withSurface c p q
    · rw [GlContext.makeCurrent_canvas hm, GlContext.canvas_withSurface]
    · exact GlContext.makeCurrent_canvas hm
  | unlock =>
    rcases GlContext.unlock_cases h with ⟨-, -, y, cs1, ds, dsi, hm, -, -, rfl, -⟩ |
      ⟨-, -, hm⟩
    · rw [GlContext.canvas_withSurface, GlContext.makeCurrent_canvas hm]
    · exact GlContext.makeCurrent_canvas hm
  | swapBuffers =>
    obtain ⟨e, he, -, -⟩ := GlContext.swapBuffers_eq c n
    simp only [GlContext.step, he, Option.some.injEq, Prod.mk.injEq] at h
    obtain ⟨-, rfl, -⟩ := h
    rfl

theorem GlContext.run_canvas {c c1 : GlContext} {ops : List (Op × Natives)}
    {hist : List (Op × Bool)} {cs : List Call}
    (h : c.run ops = some (c1, hist, cs)) : c1.canvas = c.canvas := by
  induction ops generalizing c hist cs with
  | nil =>
    simp only [GlContext.run, Option.some.injEq, Prod.mk.injEq] at h
    obtain ⟨rfl, -, -⟩ := h
    rfl
  | cons o rest ih =>
    obtain ⟨op, n⟩ := o
    simp only [GlContext.run] at h
    cases hs : c.step op n with
    | none => simp [hs] at h
    | some r =>
      obtain ⟨rr, rc, rcs⟩ := r
      simp only [hs] at h
      cases hr : GlContext.run rc rest with
      | none => simp [hr] at h
      | some q =>
        obtain ⟨qc, qh, qcs⟩ := q
        simp only [hr, Option.some.injEq, Prod.mk.injEq] at h
        obtain ⟨rfl, -, -⟩ := h
        rw [ih hr, GlContext.step_canvas hs]

theorem GlContext.killGlContext_trace (c : GlContext) :
    c.killGlContext.filterMap Call.deleted = (if c.handle ≠ 0 then [c.handle] else []) ∧
    c.killGlContext.filterMap Call.deletedOn
      = (if c.handle ≠ 0 then c.display.toList else []) ∧
    c.killGlContext.filterMap Call.releasedRef = c.canvas.toList ∧
    c.killGlContext = c.killGlContext.filter Call.isDeletion
      ++ c.killGlContext.filter Call.isDeleteGlobalRef ∧
    c.killGlContext.countP Call.isDeletion = (if c.handle ≠ 0 then 1 else 0) ∧
    c.killGlContext.countP Call.isGlNative = (if c.handle ≠ 0 then 1 else 0) ∧
    c.killGlContext.countP Call.isDeleteGlobalRef = (if c.isAwt then 1 else 0) := by
  cases c with
  | wglAwt x =>
    by_cases h : x._hglrc = 0 <;>
      simp [GlContext.killGlContext, WglAwtCanvasContext.destructor,
        GlAwtCanvasContext.destructor, GlContext.handle, GlContext.canvas, GlContext.isAwt,
        Call.deleted, Call.releasedRef, Call.isDeletion, Call.isGlNative,
        Call.isDeleteGlobalRef, Call.deletedOn, GlContext.display, h]
  | glxAwt x =>
    by_cases h : x._context = 0 <;>
      simp [GlContext.killGlContext, GlxAwtCanvasContext.destructor,
        GlAwtCanvasContext.destructor, GlContext.handle, GlContext.canvas, GlContext.isAwt,
        Call.deleted, Call.releasedRef, Call.isDeletion, Call.isGlNative,
        Call.isDeleteGlobalRef, Call.deletedOn, GlContext.display, h]
  | wglSwt x =>
    by_cases h : x._hglrc = 0 <;>
      simp [GlContext.killGlContext, WglSwtCanvasContext.destructor, GlContext.handle,
        GlContext.canvas, GlContext.isAwt, Call.deleted, Call.releasedRef, Call.isDeletion,
        Call.isGlNative, Call.isDeleteGlobalRef, Call.deletedOn, GlContext.display, h]
  | glxSwt x =>
    by_cases h : x._context = 0 <;>
      simp [GlContext.killGlContext, GlxSwtCanvasContext.destructor, GlContext.handle,
        GlContext.canvas, GlContext.isAwt, Call.deleted, Call.releasedRef, Call.isDeletion,
        Call.isGlNative, Call.isDeleteGlobalRef, Call.deletedOn, GlContext.display, h]

/-- C9: destroying the context reached from any state by any sequence of lock, unlock
and swapBuffers calls. The destruction trace is its context deletions followed by its
reference releases and nothing else. The deletions are: the cached handle, once, when
it is non-null (it is the result of the last native creation of the sequence, if there
was one), and none when it is null. The releases are: for an AWT context its canvas
reference, once, which is the reference it held before the sequence (for a created
context, the one `NewGlobalRef` returned); for an SWT context none. A context that was
never locked (created, then possibly asked to swap) has a null handle, releases the
reference obtained at construction and makes no call to the windowing or OpenGL layer. -/
theorem destroy_releases (c c1 : GlContext) (ops : List (Op × Natives))
    (hist : List (Op × Bool)) (cs : List Call) (p : Platform)
    (canvas ref d w hwnd hdc : Handle) (ns : List Natives)
    (h : c.run ops = some (c1, hist, cs)) :
    c1.killGlContext.filterMap Call.deleted = (if c1.handle ≠ 0 then [c1.handle] else []) ∧
    c1.killGlContext.filterMap Call.deletedOn
      = (if c1.handle ≠ 0 then c1.display.toList else []) ∧
    c1.handle = (creations cs).getLast?.getD c.handle ∧
    c1.killGlContext.filterMap Call.releasedRef = c.canvas.toList ∧
    c1.killGlContext = c1.killGlContext.filter Call.isDeletion
      ++ c1.killGlContext.filter Call.isDeleteGlobalRef ∧
    c1.killGlContext.countP Call.isDeletion = (if c1.handle ≠ 0 then 1 else 0) ∧
    c1.killGlContext.countP Call.isGlNative = (if c1.handle ≠ 0 then 1 else 0) ∧
    c1.killGlContext.countP Call.isDeleteGlobalRef = (if c1.isAwt then 1 else 0) ∧
    (makeGlAwtCanvasContext p canvas ref).1.canvas = some ref ∧
    (makeGlAwtCanvasContext p canvas ref).1.handle = 0 ∧
    (makeGlSwtCanvasContext p d w hwnd hdc).canvas = none ∧
    (makeGlSwtCanvasContext p d w hwnd hdc).handle = 0 ∧
    ((makeGlAwtCanvasContext p canvas ref).1.run (ns.map fun n => (Op.swapBuffers, n))).map
        (fun r => r.1.killGlContext) = some [.DeleteGlobalRef ref] ∧
    ((makeGlSwtCanvasContext p d w hwnd hdc).run (ns.map fun n => (Op.swapBuffers, n))).map
        (fun r => r.1.killGlContext) = some [] := by
  obtain ⟨k1, k0, k2, k3, k4, k5, k6⟩ := GlContext.killGlContext_trace c1
  refine ⟨k1, k0, lazyCreate_getLast (GlContext.run_lazy h), ?_, k3, k4, k5, k6, ?_, ?_, ?_,
    ?_, ?_, ?_⟩
  · rw [k2, GlContext.run_canvas h]
  · cases p <;> rfl
  · cases p <;> rfl
  · cases p <;> rfl
  · cases p <;> rfl
  · have := GlContext.run_swaps (makeGlAwtCanvasContext p canvas ref).1 ns
    rw [Option.map_eq_some'] at this ⊢
    obtain ⟨r, hr, hc⟩ := this
    refine ⟨r, hr, ?_⟩
    rw [hc]
    cases p <;> rfl
  · have := GlContext.run_swaps (makeGlSwtCanvasContext p d w hwnd hdc) ns
    rw [Option.map_eq_some'] at this ⊢
    obtain ⟨r, hr, hc⟩ := this
    refine ⟨r, hr, ?_⟩
    rw [hc]
    cases p <;> rfl

/-- Witness for C9: a new Windows AWT context for canvas 5 with global reference 6,
destroyed after two lock/unlock cycles in which the second creation returned 31. -/
theorem destroy_releases_witness :
    ∃ r, sampleWglAwt.run sampleCycles = some r ∧
      r.1.killGlContext = [.wglDeleteContext 31, .DeleteGlobalRef 6] ∧
      r.1.killGlContext.filterMap Call.deleted
        = (if r.1.handle ≠ 0 then [r.1.handle] else []) ∧
      r.1.killGlContext.filterMap Call.deletedOn
        = (if r.1.handle ≠ 0 then r.1.display.toList else []) ∧
      r.1.handle = (creations r.2.2).getLast?.getD sampleWglAwt.handle ∧
      r.1.killGlContext.filterMap Call.releasedRef = sampleWglAwt.canvas.toList ∧
      r.1.killGlContext = r.1.killGlContext.filter Call.isDeletion
        ++ r.1.killGlContext.filter Call.isDeleteGlobalRef ∧
      r.1.killGlContext.countP Call.isDeletion = (if r.1.handle ≠ 0 then 1 else 0) ∧
      r.1.killGlContext.countP Call.isGlNative = (if r.1.handle ≠ 0 then 1 else 0) ∧
      r.1.killGlContext.countP Call.isDeleteGlobalRef = (if r.1.isAwt then 1 else 0) ∧
      (makeGlAwtCanvasContext .MWIN 5 6).1.canvas = some 6 ∧
      (makeGlAwtCanvasContext .MWIN 5 6).1.handle = 0 ∧
      (makeGlSwtCanvasContext .MWIN 0 0 1 2).canvas = none ∧
      (makeGlSwtCanvasContext .MWIN 0 0 1 2).handle = 0 ∧
      ((makeGlAwtCanvasContext .MWIN 5 6).1.run
          ([nativesOk].map fun n => (Op.swapBuffers, n))).map
          (fun r => r.1.killGlContext) = some [.DeleteGlobalRef 6] ∧
      ((makeGlSwtCanvasContext .MWIN 0 0 1 2).run
          ([nativesOk].map fun n => (Op.swapBuffers, n))).map
          (fun r => r.1.killGlContext) = some [] := by
  have hs : (sampleWglAwt.run sampleCycles).isSome = true := by decide
  exact ⟨(sampleWglAwt.run sampleCycles).get hs, (Option.some_get hs).symm, rfl,
    destroy_releases sampleWglAwt ((sampleWglAwt.run sampleCycles).get hs).1 sampleCycles
      ((sampleWglAwt.run sampleCycles).get hs).2.1
      ((sampleWglAwt.run sampleCycles).get hs).2.2 .MWIN 5 6 0 0 1 2 [nativesOk]
      (Option.some_get hs).symm⟩

/-! ### The display of an X11 AWT context -/

theorem GlxAwtCanvasContext.Assigned.mono {g : GlxAwtCanvasContext} {t : List Call}
    (h : g.Assigned t) (cs : List Call) : g.Assigned (t ++ cs) := by
  refine ⟨fun dsi hd => ?_, fun hc => ?_⟩
  · obtain ⟨ds, hds⟩ := h.1 dsi hd
    exact ⟨ds, List.mem_append_left _ hds⟩
  · obtain ⟨ds, x, hm, h1, h2⟩ := h.2 hc
    exact ⟨ds, x, List.mem_append_left _ hm, h1, h2⟩

theorem GlxAwtCanvasContext.makeCurrent_assigned {g g1 : GlxAwtCanvasContext} {flag : Bool}
    {n : Natives} {cs t : List Call} (h : g.makeCurrent flag n = some (g1, cs))
    (hg : g.Assigned t) :
    g1.toGlAwtCanvasContext = g.toGlAwtCanvasContext ∧ g1.Assigned (t ++ cs) := by
  unfold GlxAwtCanvasContext.makeCurrent at h
  split at h
  · rename_i x hx
    simp only [Option.some.injEq, Prod.mk.injEq] at h
    obtain ⟨rfl, rfl⟩ := h
    have hlive : g._dsi = .live ⟨.x11 x⟩ := by
      cases hd : g._dsi <;> simp_all [Ptr.deref]
    obtain ⟨ds, hds⟩ := hg.1 _ hlive
    refine ⟨rfl, fun dsi hd => ?_, fun _ => ?_⟩
    · obtain ⟨ds1, hds1⟩ := hg.1 dsi hd
      exact ⟨ds1, List.mem_append_left _ hds1⟩
    · exact ⟨ds, x, List.mem_append_left _ hds, rfl, rfl⟩
  · simp at h

theorem GlxAwtCanvasContext.step_assigned {g : GlxAwtCanvasContext} {op : Op} {n : Natives}
    {r : Bool} {c1 : GlContext} {cs t : List Call}
    (h : (GlContext.glxAwt g).step op n = some (r, c1, cs)) (hg : g.Assigned t) :
    ∃ g1, c1 = .glxAwt g1 ∧ g1._canvas = g._canvas ∧ g1.Assigned (t ++ cs) := by
  cases op with
  | lock =>
    obtain ⟨x, hx, rfl⟩ := GlContext.wrap_eq_some _ h
    refine ⟨x, rfl, ?_⟩
    rcases GlAwtCanvasContext.lock_inv _ _ _ _ _ hx with ⟨-, hc, -, -⟩ |
      ⟨-, ds, dsi, cs1, -, -, -, -, hm, rfl⟩
    · rcases hc with rfl | ⟨b, rfl, hb, hd⟩
      · exact ⟨rfl, hg.mono cs⟩
      · refine ⟨hb, fun dsi hl => ?_, fun hc => ?_⟩
        · simp only at hl
          rcases hd with hd | hd
          · obtain ⟨ds1, h1⟩ := hg.1 dsi (by rw [← hd]; exact hl)
            exact ⟨ds1, List.mem_append_left _ h1⟩
          · rw [hd] at hl
            simp at hl
        · exact (hg.mono cs).2 hc
    · have hpre : GlxAwtCanvasContext.Assigned
          { g with toGlAwtCanvasContext :=
              { g.toGlAwtCanvasContext with _ds := .live ds, _dsi := .live dsi } }
          (t ++ [.JAWT_GetAWT true, .GetDrawingSurface g._canvas (some ds),
            .Lock ds n.Lock, .GetDrawingSurfaceInfo ds (some dsi)]) := by
        refine ⟨fun d hd => ?_, fun hc => (hg.mono _).2 hc⟩
        simp only [Ptr.live.injEq] at hd
        subst hd
        exact ⟨ds, by simp⟩
      obtain ⟨hb, ha⟩ := GlxAwtCanvasContext.makeCurrent_assigned hm hpre
      refine ⟨by rw [hb], ?_⟩
      rw [← List.append_assoc]
      exact ha
  | unlock =>
    obtain ⟨x, hx, rfl⟩ := GlContext.wrap_eq_some _ h
    refine ⟨x, rfl, ?_⟩
    obtain ⟨-, y, cs1, ds, dsi, hm, -, -, rfl, rfl⟩ :=
      GlAwtCanvasContext.unlock_inv _ _ _ _ _ hx
    obtain ⟨hb, ha⟩ := GlxAwtCanvasContext.makeCurrent_assigned hm hg
    refine ⟨by rw [← hb], fun d hd => ?_, fun hc => ?_⟩
    · simp at hd
    · rw [← List.append_assoc]
      exact (ha.mono _).2 hc
  | swapBuffers =>
    simp only [GlContext.step, GlContext.swapBuffers, GlxAwtCanvasContext.swapBuffers,
      GlContext.wrap, Option.map_some', Option.some.injEq, Prod.mk.injEq] at h
    obtain ⟨-, rfl, rfl⟩ := h
    exact ⟨g, rfl, rfl, hg.mono _⟩

theorem GlxAwtCanvasContext.run_assigned {g : GlxAwtCanvasContext}
    {ops : List (Op × Natives)} {c1 : GlContext} {hist : List (Op × Bool)}
    {cs t : List Call}
    (h : (GlContext.glxAwt g).run ops = some (c1, hist, cs)) (hg : g.Assigned t) :
    ∃ g1, c1 = .glxAwt g1 ∧ g1._canvas = g._canvas ∧ g1.Assigned (t ++ cs) := by
  induction ops generalizing g hist cs t with
  | nil =>
    simp only [GlContext.run, Option.some.injEq, Prod.mk.injEq] at h
    obtain ⟨rfl, -, rfl⟩ := h
    exact ⟨g, rfl, rfl, hg.mono _⟩
  | cons o rest ih =>
    obtain ⟨op, n⟩ := o
    simp only [GlContext.run] at h
    cases hs : (GlContext.glxAwt g).step op n with
    | none => simp [hs] at h
    | some r =>
      simp only [hs] at h
      cases hr : GlContext.run r.2.1 rest with
      | none => simp [hr] at h
      | some q =>
        simp only [hr, Option.some.injEq, Prod.mk.injEq] at h
        obtain ⟨rfl, -, rfl⟩ := h
        have h1 : (GlContext.glxAwt g).step op n = some (r.1, r.2.1, r.2.2) := hs
        obtain ⟨g1, hg1, hc1, ha1⟩ := GlxAwtCanvasContext.step_assigned h1 hg
        rw [hg1] at hr
        obtain ⟨g2, hg2, hc2, ha2⟩ := ih hr ha1
        refine ⟨g2, hg2, by rw [hc2, hc1], ?_⟩
        rw [← List.append_assoc]
        exact ha2

/-- C10: in every state of an X11 AWT context reached from construction by a sequence
of lock, unlock and swapBuffers calls, if the cached context handle is non-null then
the display and drawable fields hold the values of an X11 surface-info block that an
earlier `GetDrawingSurfaceInfo` returned, and destruction then calls
`glXDestroyContext` with that display and releases the canvas reference. -/
theorem glxAwt_display_assigned (canvas ref : Handle) (ops : List (Op × Natives))
    (c1 : GlContext) (hist : List (Op × Bool)) (cs : List Call)
    (h : (makeGlAwtCanvasContext .XWIN canvas ref).1.run ops = some (c1, hist, cs)) :
    ∃ g, c1 = .glxAwt g ∧
      (g._context ≠ 0 → ∃ ds x, Call.GetDrawingSurfaceInfo ds (some ⟨.x11 x⟩) ∈ cs ∧
        g._display = some x.display ∧ g._drawable = some x.drawable ∧
        c1.killGlContext
          = [.glXDestroyContext (some x.display) g._context, .DeleteGlobalRef ref]) := by
  have h0 : (GlxAwtCanvasContext.new canvas ref).1.Assigned [] := by
    refine ⟨fun d hd => ?_, fun hc => ?_⟩
    · simp [GlxAwtCanvasContext.new, GlAwtCanvasContext.new] at hd
    · simp [GlxAwtCanvasContext.new] at hc
  obtain ⟨g, rfl, hcan, ha⟩ := GlxAwtCanvasContext.run_assigned h h0
  refine ⟨g, rfl, fun hc => ?_⟩
  obtain ⟨ds, x, hm, hd, hw⟩ := ha.2 hc
  refine ⟨ds, x, by simpa using hm, hd, hw, ?_⟩
  have hcan2 : g._canvas = ref := by
    rw [hcan]
    rfl
  simp [GlContext.killGlContext, GlxAwtCanvasContext.destructor,
    GlAwtCanvasContext.destructor, hc, hd, hcan2]

/-- Witness for C10: a new X11 AWT context after a lock and an unlock. -/
theorem glxAwt_display_assigned_witness :
    ∃ r, sampleGlxAwt.run [(.lock, nativesOkX11), (.unlock, nativesOkX11)] = some r ∧
      r.1.handle = 51 ∧
      ∃ g, r.1 = .glxAwt g ∧
        (g._context ≠ 0 →
          ∃ ds x, Call.GetDrawingSurfaceInfo ds (some ⟨.x11 x⟩) ∈ r.2.2 ∧
          g._display = some x.display ∧ g._drawable = some x.drawable ∧
          r.1.killGlContext
            = [.glXDestroyContext (some x.display) g._context, .DeleteGlobalRef 6]) := by
  have hs : (sampleGlxAwt.run
      [(.lock, nativesOkX11), (.unlock, nativesOkX11)]).isSome = true := by decide
  exact ⟨Option.get _ hs, (Option.some_get hs).symm, rfl,
    glxAwt_display_assigned 5 6 [(.lock, nativesOkX11), (.unlock, nativesOkX11)]
      (Option.get _ hs).1 (Option.get _ hs).2.1 (Option.get _ hs).2.2
      (Option.some_get hs).symm⟩

end Jtk
